import Mathlib

/-!
Verification development for the CPU ray tracer in
`src/lab4/2023080909014_WuXi_lab4.cpp` (Cornell-box scene with recursive
reflection/refraction, procedural wood texture, shadowing and gamma output).

The C++ `float` arithmetic is modelled over `ℝ`.  The one place where the
program relies on IEEE-754 special values — the reciprocal ray direction in
`Box::intersect`, where `1/0 = +inf` — is modelled with `EReal` slab bounds
(see `einv`).  The global Mersenne-Twister stream consumed by the glossy
Monte-Carlo sampling is modelled as an explicit stream `g : ℕ → ℝ` together
with a cursor that every draw advances, and the shuffled Perlin permutation
table as an explicit table `pt : ℕ → ℕ`.  Recursion in `Scene::trace` is
modelled with an explicit fuel argument; `Scene.trace` instantiates the fuel
at `7 - depth`, which is proved sufficient (the recursion cap of the source).
-/

open scoped Classical

noncomputable section

namespace RayTracer

/-- 3-component vector of the source (`struct Vector3`); components are the
`float` fields `x`, `y`, `z` modelled as reals. -/
@[ext]
structure Vector3 where
  x : ℝ
  y : ℝ
  z : ℝ

instance : Add Vector3 := ⟨fun a b => ⟨a.x + b.x, a.y + b.y, a.z + b.z⟩⟩

instance : Sub Vector3 := ⟨fun a b => ⟨a.x - b.x, a.y - b.y, a.z - b.z⟩⟩

/-- Component-wise (Hadamard) product, `operator*(const Vector3&)` of the source. -/
instance : Mul Vector3 := ⟨fun a b => ⟨a.x * b.x, a.y * b.y, a.z * b.z⟩⟩

/-- Scalar multiplication, `operator*(float)` of the source. -/
instance : SMul ℝ Vector3 := ⟨fun s v => ⟨s * v.x, s * v.y, s * v.z⟩⟩

@[simp] theorem Vector3.add_mk (a b c d e f : ℝ) :
    (⟨a, b, c⟩ + ⟨d, e, f⟩ : Vector3) = ⟨a + d, b + e, c + f⟩ := rfl

@[simp] theorem Vector3.sub_mk (a b c d e f : ℝ) :
    (⟨a, b, c⟩ - ⟨d, e, f⟩ : Vector3) = ⟨a - d, b - e, c - f⟩ := rfl

@[simp] theorem Vector3.mul_mk (a b c d e f : ℝ) :
    (⟨a, b, c⟩ * ⟨d, e, f⟩ : Vector3) = ⟨a * d, b * e, c * f⟩ := rfl

@[simp] theorem Vector3.smul_mk (s a b c : ℝ) :
    (s • (⟨a, b, c⟩ : Vector3)) = ⟨s * a, s * b, s * c⟩ := rfl

/-- Dot product (`Vector3::dot`). -/
def Vector3.dot (a b : Vector3) : ℝ := a.x * b.x + a.y * b.y + a.z * b.z

/-- Cross product (`Vector3::cross`). -/
def Vector3.cross (a b : Vector3) : Vector3 :=
  ⟨a.y * b.z - a.z * b.y, a.z * b.x - a.x * b.z, a.x * b.y - a.y * b.x⟩

/-- Vector length (`Vector3::length`). -/
def Vector3.length (v : Vector3) : ℝ := Real.sqrt (v.x * v.x + v.y * v.y + v.z * v.z)

/-- Normalization (`Vector3::normalize`): divides by the length when it is
positive and returns the vector unchanged otherwise (the zero-vector guard of
the source, `len > 0 ? *this * (1.0f/len) : *this`). -/
def Vector3.normalize (v : Vector3) : Vector3 :=
  let len := Real.sqrt (v.x * v.x + v.y * v.y + v.z * v.z)
  if len > 0 then (1 / len) • v else v

@[simp] theorem Vector3.dot_mk (a b c d e f : ℝ) :
    Vector3.dot ⟨a, b, c⟩ ⟨d, e, f⟩ = a * d + b * e + c * f := rfl

@[simp] theorem Vector3.length_mk (a b c : ℝ) :
    Vector3.length ⟨a, b, c⟩ = Real.sqrt (a * a + b * b + c * c) := rfl

/-- A ray (`struct Ray`): origin and direction fields. -/
structure Ray where
  origin : Vector3
  direction : Vector3

/-- The `Ray` constructor of the source normalizes the direction. -/
def mkRay (o d : Vector3) : Ray := ⟨o, d.normalize⟩

@[simp] theorem mkRay_origin (o d : Vector3) : (mkRay o d).origin = o := rfl

@[simp] theorem mkRay_direction (o d : Vector3) : (mkRay o d).direction = d.normalize := rfl

/-- Material record (`struct Material`) with the in-class default member
initializers of the source. -/
structure Material where
  color : Vector3 := ⟨0, 0, 0⟩
  ka : ℝ := 0.1
  kd : ℝ := 0.8
  ks : ℝ := 0.2
  kr : ℝ := 0
  shininess : ℝ := 32
  eta : ℝ := 1
  roughness : ℝ := 0
  isRefractive : Bool := false
  isMetallic : Bool := false

/-- Sphere primitive (`struct Sphere`). -/
structure Sphere where
  center : Vector3
  radius : ℝ
  mat : Material

/-- `Sphere::intersect`: solves `a t² + b t + c = 0`, rejects a negative
discriminant, prefers the smaller root and falls back to the larger one, in
both cases requiring `t > 0.001`.  `bool` + out-parameter is modelled as
`Option ℝ`. -/
def Sphere.intersect (s : Sphere) (r : Ray) : Option ℝ :=
  let oc := r.origin - s.center
  let a := r.direction.dot r.direction
  let b := 2 * oc.dot r.direction
  let c := oc.dot oc - s.radius * s.radius
  let discriminant := b * b - 4 * a * c
  if discriminant < 0 then none
  else
    let t := (-b - Real.sqrt discriminant) / (2 * a)
    if t > 0.001 then some t
    else
      let t2 := (-b + Real.sqrt discriminant) / (2 * a)
      if t2 > 0.001 then some t2 else none

/-- Box primitive (`struct Box`). -/
structure Box where
  min : Vector3
  max : Vector3
  mat : Material

/-- Models the IEEE-754 reciprocal `1 / direction.component` used by
`Box::intersect`: a zero float component gives `+∞` (the source has no zero
check and relies on `1.0f / 0.0f = inf`). -/
def einv (d : ℝ) : EReal := if d = 0 then ⊤ else ((1 / d : ℝ) : EReal)

/-- The per-axis slab pair with the `std::swap` of the source applied. -/
def slab (lo hi o : ℝ) (inv : EReal) : EReal × EReal :=
  let t1 : EReal := ((lo - o : ℝ) : EReal) * inv
  let t2 : EReal := ((hi - o : ℝ) : EReal) * inv
  if t1 > t2 then (t2, t1) else (t1, t2)

/-- The exit-face normal computation of `Box::intersect` (source lines
150-165): test each face within `eps = 0.001` consistently with the sign of
the ray direction on that axis, and fall back to the normalized direction
from the box centroid to the hit point when no face matches. -/
def Box.normalAt (b : Box) (hitPoint dir : Vector3) : Vector3 :=
  let eps : ℝ := 0.001
  let n : Vector3 :=
    if |hitPoint.x - b.min.x| < eps ∧ dir.x < 0 then ⟨-1, 0, 0⟩
    else if |hitPoint.x - b.max.x| < eps ∧ dir.x > 0 then ⟨1, 0, 0⟩
    else if |hitPoint.y - b.min.y| < eps ∧ dir.y < 0 then ⟨0, -1, 0⟩
    else if |hitPoint.y - b.max.y| < eps ∧ dir.y > 0 then ⟨0, 1, 0⟩
    else if |hitPoint.z - b.min.z| < eps ∧ dir.z < 0 then ⟨0, 0, -1⟩
    else if |hitPoint.z - b.max.z| < eps ∧ dir.z > 0 then ⟨0, 0, 1⟩
    else ⟨0, 0, 0⟩
  if n.length = 0 then
    let center := (0.5 : ℝ) • (b.min + b.max)
    (hitPoint - center).normalize
  else n

/-- `Box::intersect`: slab method with IEEE reciprocal directions (`einv`),
entry distance required to lie in `(0.001, 1000]`, and the face/centroid
normal of `Box.normalAt`.  An accepted entry distance is finite, so the
extraction `EReal.toReal` is lossless. -/
def Box.intersect (b : Box) (r : Ray) : Option (ℝ × Vector3) :=
  let sx := slab b.min.x b.max.x r.origin.x (einv r.direction.x)
  let sy := slab b.min.y b.max.y r.origin.y (einv r.direction.y)
  if sx.1 > sy.2 ∨ sy.1 > sx.2 then none
  else
    let tMin := if sy.1 > sx.1 then sy.1 else sx.1
    let tMax := if sy.2 < sx.2 then sy.2 else sx.2
    let sz := slab b.min.z b.max.z r.origin.z (einv r.direction.z)
    if tMin > sz.2 ∨ sz.1 > tMax then none
    else
      let tMin2 := if sz.1 > tMin then sz.1 else tMin
      if tMin2 < ((0.001 : ℝ) : EReal) ∨ tMin2 > ((1000 : ℝ) : EReal) then none
      else
        let t := tMin2.toReal
        some (t, b.normalAt (r.origin + t • r.direction) r.direction)

/-- Linear interpolation (`interpolate(float, float, float)`). -/
def interpolate (a b t : ℝ) : ℝ := (1 - t) * a + t * b

/-- `Vector3` interpolation (`interpolate(const Vector3&, const Vector3&, float)`). -/
def interpolateV (a b : Vector3) (t : ℝ) : Vector3 := (1 - t) • a + t • b

/-- Perlin fade curve (`fade`). -/
def fade (t : ℝ) : ℝ := t * t * t * (t * (t * 6 - 15) + 10)

/-- Pseudo-gradient dot product (`grad`); `hash & 0xF` selects one of eight
directions with a zero fallback. -/
def grad (hash : ℕ) (x y : ℝ) : ℝ :=
  match hash % 16 with
  | 0 => x + y
  | 1 => -x + y
  | 2 => x - y
  | 3 => -x - y
  | 4 => x
  | 5 => -x
  | 6 => y
  | 7 => -y
  | _ => 0

/-- 2D Perlin-style gradient noise (`perlinNoise`), parameterized over the
shuffled permutation table `pt` (the global array `p[512]` of the source; its
contents come from a seeded shuffle, so they enter the model as a parameter).
`(int)std::floor(x) & 255` on a two's-complement int equals `⌊x⌋ % 256`. -/
def perlinNoise (pt : ℕ → ℕ) (x y : ℝ) : ℝ :=
  let X := ((⌊x⌋ : ℤ) % 256).toNat
  let Y := ((⌊y⌋ : ℤ) % 256).toNat
  let xf := x - ⌊x⌋
  let yf := y - ⌊y⌋
  let u := fade xf
  let v := fade yf
  let A := pt X + Y
  let B := pt (X + 1) + Y
  interpolate
    (interpolate (grad (pt A) xf yf) (grad (pt B) (xf - 1) yf) u)
    (interpolate (grad (pt (A + 1)) xf (yf - 1)) (grad (pt (B + 1)) (xf - 1) (yf - 1)) u)
    v

/-- Truncation toward zero, the semantics of the C++ cast `static_cast<int>`
on a float. -/
def rtrunc (x : ℝ) : ℤ := if 0 ≤ x then ⌊x⌋ else ⌈x⌉

/-- Procedural wood-grain color for box hits (`Scene::getWoodTextureColor`). -/
def getWoodTextureColor (pt : ℕ → ℕ) (hitPoint normal : Vector3) : Vector3 :=
  let lightWood : Vector3 := ⟨0.65, 0.45, 0.25⟩
  let darkWood : Vector3 := ⟨0.45, 0.25, 0.1⟩
  let scale : ℝ := 10
  let stripeDensity : ℝ := 0.3
  let noiseStrength : ℝ := 0.3
  let sc :=
    if |normal.y| > 0.9 then
      (hitPoint.z * scale, perlinNoise pt (hitPoint.x * scale * 0.5) (hitPoint.z * scale * 0.5))
    else if |normal.x| > 0.9 then
      (hitPoint.y * scale, perlinNoise pt (hitPoint.y * scale * 0.5) (hitPoint.z * scale * 0.5))
    else
      (hitPoint.y * scale, perlinNoise pt (hitPoint.x * scale * 0.5) (hitPoint.y * scale * 0.5))
  let stripePattern := Real.sin (sc.1 * 2 * Real.pi / stripeDensity + sc.2 * noiseStrength * 10)
  let stripePattern := (stripePattern + 1) * 0.5
  let stripePattern := |stripePattern - 0.5| * 2
  let stripePattern := stripePattern ^ (2 : ℕ)
  interpolateV lightWood darkWood stripePattern

/-- Scene state (`struct Scene`): primitive lists plus the light, background
and camera member initializers of the source. -/
structure Scene where
  spheres : List Sphere := []
  boxes : List Box := []
  lightPos : Vector3 := ⟨0, 2.9, 0⟩
  lightColor : Vector3 := ⟨1.5, 1.5, 1.5⟩
  bgColor : Vector3 := ⟨0.85, 0.85, 0.85⟩
  cameraPos : Vector3 := ⟨0, 1.5, 2.5⟩
  lookAt : Vector3 := ⟨0, 1.5, 0⟩

/-- `Scene::planeIntersect`: infinite plane, rejecting near-parallel rays
(`|denom| ≤ 0.001`) and non-positive distances. -/
def Scene.planeIntersect (r : Ray) (point normal : Vector3) : Option ℝ :=
  let denom := normal.dot r.direction
  if |denom| > 0.001 then
    let t := (point - r.origin).dot normal / denom
    if t > 0.001 then some t else none
  else none

/-- The running nearest-hit state of `Scene::trace` (locals `tMin`, `hitMat`,
`hitPoint`, `hitNormal`, `hasHit`, `isBox`). -/
structure HitState where
  tMin : ℝ
  hitMat : Material
  hitPoint : Vector3
  hitNormal : Vector3
  hasHit : Bool
  isBox : Bool

/-- Initial nearest-hit state of a `Scene::trace` call: `tMin = 100000`, a
default-constructed `Material`, and no hit. -/
def HitState.init : HitState :=
  { tMin := 100000, hitMat := {}, hitPoint := ⟨0, 0, 0⟩, hitNormal := ⟨0, 0, 0⟩,
    hasHit := false, isBox := false }

/-- One iteration of the sphere loop of `Scene::trace`. -/
def sphereStep (r : Ray) (st : HitState) (s : Sphere) : HitState :=
  match s.intersect r with
  | some t =>
      if t < st.tMin then
        { tMin := t, hitPoint := r.origin + t • r.direction,
          hitNormal := ((r.origin + t • r.direction) - s.center).normalize,
          hitMat := s.mat, hasHit := true, isBox := false }
      else st
  | none => st

/-- One iteration of the box loop of `Scene::trace`. -/
def boxStep (r : Ray) (st : HitState) (b : Box) : HitState :=
  match b.intersect r with
  | some (t, normal) =>
      if t < st.tMin then
        { tMin := t, hitPoint := r.origin + t • r.direction, hitNormal := normal,
          hitMat := b.mat, hasHit := true, isBox := true }
      else st
  | none => st

/-- The inline floor test of `Scene::trace` (plane `y = 0` with the
procedural board pattern).  Only the listed material fields are assigned;
`isRefractive`, `eta` (and nothing else) keep their previous values. -/
def floorStep (r : Ray) (st : HitState) : HitState :=
  match Scene.planeIntersect r ⟨0, 0, 0⟩ ⟨0, 1, 0⟩ with
  | some tPlane =>
      if tPlane < st.tMin then
        let p := r.origin + tPlane • r.direction
        if p.x ≥ -1.5 ∧ p.x ≤ 1.5 ∧ p.z ≥ -1.5 ∧ p.z ≤ 1.5 then
          let woodX := p.x * 15
          let woodZ := p.z * 8
          let pattern := Real.sin woodX * 0.5 + 0.5
          let stripe := (rtrunc (woodZ * 5)).tmod 2
          let baseColor : Vector3 :=
            if stripe ≠ 0 then ⟨0.55, 0.35, 0.15⟩ else ⟨0.45, 0.25, 0.1⟩
          { tMin := tPlane, hitPoint := p, hitNormal := ⟨0, 1, 0⟩,
            hitMat := { st.hitMat with
              color := (0.8 + pattern * 0.2) • baseColor,
              ka := 0.15, kd := 0.75, ks := 0.15, kr := 0, shininess := 20,
              isMetallic := false, roughness := 0 },
            hasHit := true, isBox := false }
        else st
      else st
  | none => st

/-- The inline left-wall test of `Scene::trace` (red wall `x = -1.5`).
Note: unlike the floor it does not assign `shininess`. -/
def leftWallStep (r : Ray) (st : HitState) : HitState :=
  match Scene.planeIntersect r ⟨-1.5, 0, 0⟩ ⟨1, 0, 0⟩ with
  | some tPlane =>
      if tPlane < st.tMin then
        let p := r.origin + tPlane • r.direction
        if p.y ≥ 0 ∧ p.y ≤ 3 ∧ p.z ≥ -1.5 ∧ p.z ≤ 1.5 then
          { tMin := tPlane, hitPoint := p, hitNormal := ⟨1, 0, 0⟩,
            hitMat := { st.hitMat with
              color := ⟨0.75, 0.1, 0.1⟩,
              ka := 0.1, kd := 0.8, ks := 0.05, kr := 0,
              isMetallic := false, roughness := 0 },
            hasHit := true, isBox := false }
        else st
      else st
  | none => st

/-- The inline right-wall test of `Scene::trace` (green wall `x = 1.5`). -/
def rightWallStep (r : Ray) (st : HitState) : HitState :=
  match Scene.planeIntersect r ⟨1.5, 0, 0⟩ ⟨-1, 0, 0⟩ with
  | some tPlane =>
      if tPlane < st.tMin then
        let p := r.origin + tPlane • r.direction
        if p.y ≥ 0 ∧ p.y ≤ 3 ∧ p.z ≥ -1.5 ∧ p.z ≤ 1.5 then
          { tMin := tPlane, hitPoint := p, hitNormal := ⟨-1, 0, 0⟩,
            hitMat := { st.hitMat with
              color := ⟨0.1, 0.75, 0.1⟩,
              ka := 0.1, kd := 0.8, ks := 0.05, kr := 0,
              isMetallic := false, roughness := 0 },
            hasHit := true, isBox := false }
        else st
      else st
  | none => st

/-- The inline back-wall test of `Scene::trace` (white wall `z = -1.5`). -/
def backWallStep (r : Ray) (st : HitState) : HitState :=
  match Scene.planeIntersect r ⟨0, 0, -1.5⟩ ⟨0, 0, 1⟩ with
  | some tPlane =>
      if tPlane < st.tMin then
        let p := r.origin + tPlane • r.direction
        if p.x ≥ -1.5 ∧ p.x ≤ 1.5 ∧ p.y ≥ 0 ∧ p.y ≤ 3 then
          { tMin := tPlane, hitPoint := p, hitNormal := ⟨0, 0, 1⟩,
            hitMat := { st.hitMat with
              color := ⟨0.85, 0.85, 0.85⟩,
              ka := 0.1, kd := 0.8, ks := 0.05, kr := 0,
              isMetallic := false, roughness := 0 },
            hasHit := true, isBox := false }
        else st
      else st
  | none => st

/-- The inline ceiling test of `Scene::trace` (white ceiling `y = 3`). -/
def ceilingStep (r : Ray) (st : HitState) : HitState :=
  match Scene.planeIntersect r ⟨0, 3, 0⟩ ⟨0, -1, 0⟩ with
  | some tPlane =>
      if tPlane < st.tMin then
        let p := r.origin + tPlane • r.direction
        if p.x ≥ -1.5 ∧ p.x ≤ 1.5 ∧ p.z ≥ -1.5 ∧ p.z ≤ 1.5 then
          { tMin := tPlane, hitPoint := p, hitNormal := ⟨0, -1, 0⟩,
            hitMat := { st.hitMat with
              color := ⟨0.85, 0.85, 0.85⟩,
              ka := 0.1, kd := 0.8, ks := 0.05, kr := 0,
              isMetallic := false, roughness := 0 },
            hasHit := true, isBox := false }
        else st
      else st
  | none => st

/-- Nearest-hit search of `Scene::trace` (source lines 309-421): spheres,
then boxes, then the five inline bounded planes in source order. -/
def Scene.findHit (sc : Scene) (r : Ray) : HitState :=
  let st := sc.spheres.foldl (sphereStep r) HitState.init
  let st := sc.boxes.foldl (boxStep r) st
  let st := floorStep r st
  let st := leftWallStep r st
  let st := rightWallStep r st
  let st := backWallStep r st
  ceilingStep r st

/-- One sphere test of the shadow loop (source lines 482-487). -/
def sphereOccludes (shadowRay : Ray) (bound : ℝ) (s : Sphere) : Bool :=
  match s.intersect shadowRay with
  | some st => if st < bound then true else false
  | none => false

/-- One box test of the shadow loop (source lines 491-496). -/
def boxOccludes (shadowRay : Ray) (bound : ℝ) (b : Box) : Bool :=
  match b.intersect shadowRay with
  | some bt => if bt.1 < bound then true else false
  | none => false

/-- Shadow classification of `Scene::trace` (source lines 477-497): a shadow
ray is spawned at `hitPoint + hitNormal * 0.001` toward the light, and the
point is in shadow when some sphere, or else some box, intersects it closer
than `lightDist - 0.001`.  The two early-exit loops are modelled by
`List.any`. -/
def Scene.inShadow (sc : Scene) (hitPoint hitNormal : Vector3) : Bool :=
  let lightDir := (sc.lightPos - hitPoint).normalize
  let lightDist := (sc.lightPos - hitPoint).length
  let shadowRay := mkRay (hitPoint + (0.001 : ℝ) • hitNormal) lightDir
  sc.spheres.any (sphereOccludes shadowRay (lightDist - 0.001)) ||
    sc.boxes.any (boxOccludes shadowRay (lightDist - 0.001))

/-- Local Phong illumination of `Scene::trace` (source lines 472-527):
ambient + diffuse (metals scaled by 0.1) + specular when unshadowed, and
halved ambient only (`hitMat.ka * hitMat.color * 0.5`) when in shadow.
`std::pow(·, shininess)` is `Real.rpow`. -/
def Scene.localIllum (sc : Scene) (mat : Material) (hitPoint hitNormal : Vector3) : Vector3 :=
  let lightDir := (sc.lightPos - hitPoint).normalize
  let lightDist := (sc.lightPos - hitPoint).length
  if sc.inShadow hitPoint hitNormal = false then
    let ambient := mat.ka • mat.color
    let diff := max 0 (hitNormal.dot lightDir)
    let attenuation := 1 / (1 + 0.05 * lightDist * lightDist)
    let diffuse :=
      if mat.isMetallic then
        (mat.kd * diff * attenuation * 0.1) • (mat.color * sc.lightColor)
      else
        (mat.kd * diff * attenuation) • (mat.color * sc.lightColor)
    let viewDir := (sc.cameraPos - hitPoint).normalize
    let reflectDir := ((2 * hitNormal.dot lightDir) • hitNormal - lightDir).normalize
    let spec := (max 0 (viewDir.dot reflectDir)) ^ mat.shininess
    let specular :=
      (mat.ks * spec * attenuation) • (if mat.isMetallic then mat.color else sc.lightColor)
    ambient + diffuse + specular
  else
    (mat.ka * 0.5) • mat.color

/-- Schlick Fresnel approximation computed in the refractive branch (source
lines 454-455): `R0 + (1-R0)·(1-cosI)^5` with `R0 = ((eta-1)/(eta+1))²`. -/
def fresnelSchlick (cosI eta : ℝ) : ℝ :=
  let R0 := ((eta - 1) * (eta - 1)) / ((eta + 1) * (eta + 1))
  R0 + (1 - R0) * (1 - cosI) ^ (5 : ℕ)

/-- The entering/exiting analysis of the refractive branch (source lines
434-443): `cosI = -direction·normal`; on exit the cosine is negated, the
normal flipped and eta inverted.  Returns `(cosI, n, eta)`. -/
def refractGeom (dir hitNormal : Vector3) (eta0 : ℝ) : ℝ × Vector3 × ℝ :=
  let cosI := -(dir.dot hitNormal)
  if cosI > 0 then (cosI, hitNormal, eta0)
  else (-cosI, (-1 : ℝ) • hitNormal, 1 / eta0)

/-- The refraction ray spawned by the refractive branch (source lines
447-450): Snell direction, origin offset to `hitPoint - n * 0.001`. -/
def refractRayOf (dir hitPoint hitNormal : Vector3) (eta0 : ℝ) : Ray :=
  let g := refractGeom dir hitNormal eta0
  let cosI := g.1
  let n := g.2.1
  let eta := g.2.2
  let sinT2 := eta * eta * (1 - cosI * cosI)
  let cosT := Real.sqrt (1 - sinT2)
  mkRay (hitPoint - (0.001 : ℝ) • n) ((eta • dir + (eta * cosI - cosT) • n).normalize)

/-- The mirror ray spawned by the non-total-internal-reflection refractive
branch (source lines 458-459).  Note it uses the unflipped `hitNormal`, both
for the reflection direction and for the `+0.001` origin offset. -/
def reflectRayOfNoTIR (dir hitPoint hitNormal : Vector3) : Ray :=
  mkRay (hitPoint + (0.001 : ℝ) • hitNormal)
    ((dir - (2 * dir.dot hitNormal) • hitNormal).normalize)

/-- The refractive branch of `Scene::trace` (source lines 433-470) with the
recursive call abstracted as `tr` (every recursive call of the source is
`trace(·, depth+1)`).  Under total internal reflection (`sinT2 ≥ 1`) only the
mirror ray (reflected about the flipped normal `n`, offset by `+0.001·n`) is
traced; otherwise the refracted and mirror rays are traced in source order
and blended by the Schlick Fresnel weight. -/
def refractiveShade (tr : Ray → ℕ → Vector3 × ℕ) (dir hitPoint hitNormal : Vector3)
    (eta0 : ℝ) (ix : ℕ) : Vector3 × ℕ :=
  let g := refractGeom dir hitNormal eta0
  let cosI := g.1
  let n := g.2.1
  let eta := g.2.2
  let sinT2 := eta * eta * (1 - cosI * cosI)
  if sinT2 < 1 then
    let rc := tr (refractRayOf dir hitPoint hitNormal eta0) ix
    let fresnel := fresnelSchlick cosI eta
    let fc := tr (reflectRayOfNoTIR dir hitPoint hitNormal) rc.2
    ((1 - fresnel) • rc.1 + fresnel • fc.1, fc.2)
  else
    tr (mkRay (hitPoint + (0.001 : ℝ) • n) ((dir - (2 * dir.dot n) • n).normalize)) ix

/-- The glossy Monte-Carlo sampling loop of the `kr` reflection pass (source
lines 541-562).  `g` is the random stream (`dist_neg_pos_one(rng)` draws) and
the `ℕ` cursor is advanced by 3 per rough sample; samples falling on the back
side of the normal revert to the perfect mirror direction. -/
def glossyLoop (g : ℕ → ℝ) (tr : Ray → ℕ → Vector3 × ℕ)
    (hitPoint hitNormal reflectDir : Vector3) (roughness : ℝ) :
    ℕ → ℕ → Vector3 → Vector3 × ℕ
  | 0, ix, acc => (acc, ix)
  | k + 1, ix, acc =>
      if roughness > 0.001 then
        let randomVec := (⟨g ix, g (ix + 1), g (ix + 2)⟩ : Vector3).normalize
        let perturbed := (reflectDir + roughness • randomVec).normalize
        let dir := if perturbed.dot hitNormal < 0 then reflectDir else perturbed
        let c := tr (mkRay (hitPoint + (0.001 : ℝ) • hitNormal) dir) (ix + 3)
        glossyLoop g tr hitPoint hitNormal reflectDir roughness k c.2 (acc + c.1)
      else
        let c := tr (mkRay (hitPoint + (0.001 : ℝ) • hitNormal) reflectDir) ix
        glossyLoop g tr hitPoint hitNormal reflectDir roughness k c.2 (acc + c.1)

/-- The `kr` reflection pass of `Scene::trace` (source lines 530-575): 16
perturbed samples when `roughness > 0.001`, otherwise 1 perfect mirror
sample; the averaged radiance is tinted by the material color for metals and
blended as `local·(1-kr) + reflected·kr`. -/
def reflectPass (g : ℕ → ℝ) (tr : Ray → ℕ → Vector3 × ℕ) (mat : Material)
    (dir hitPoint hitNormal base : Vector3) (ix : ℕ) : Vector3 × ℕ :=
  let reflectDir := (dir - (2 * dir.dot hitNormal) • hitNormal).normalize
  let nSamples : ℕ := if mat.roughness > 0.001 then 16 else 1
  let res := glossyLoop g tr hitPoint hitNormal reflectDir mat.roughness nSamples ix ⟨0, 0, 0⟩
  let glossy := (1 / (nSamples : ℝ)) • res.1
  if mat.isMetallic then
    ((1 - mat.kr) • base + mat.kr • (glossy * mat.color), res.2)
  else
    ((1 - mat.kr) • base + mat.kr • glossy, res.2)

/-- One depth step of `Scene::trace` after the `depth > 6` guard, with the
recursive call abstracted as `tr`: nearest-hit search, wood-texture override
for boxes, refractive branch (guarded by `depth < 6`), else local Phong
illumination followed by the `kr` reflection pass (guarded by `kr > 0` and
`depth < 6`). -/
def traceBody (sc : Scene) (g : ℕ → ℝ) (pt : ℕ → ℕ) (tr : Ray → ℕ → Vector3 × ℕ)
    (r : Ray) (depth : ℕ) (ix : ℕ) : Vector3 × ℕ :=
  let st := sc.findHit r
  if st.hasHit = false then (sc.bgColor, ix)
  else
    let mat :=
      if st.isBox then
        { st.hitMat with color := getWoodTextureColor pt st.hitPoint st.hitNormal }
      else st.hitMat
    if mat.isRefractive = true ∧ depth < 6 then
      refractiveShade tr r.direction st.hitPoint st.hitNormal mat.eta ix
    else
      let localColor := sc.localIllum mat st.hitPoint st.hitNormal
      if mat.kr > 0 ∧ depth < 6 then
        reflectPass g tr mat r.direction st.hitPoint st.hitNormal localColor ix
      else (localColor, ix)

/-- Fuel-indexed recursive trace.  Every recursive call of the source is
`trace(·, depth+1)` and is guarded by `depth < 6`, so fuel `7 - depth` is
sufficient (proved below); zero fuel returns the background color, matching
the `depth > 6` guard whenever the fuel bound holds. -/
def traceAux (sc : Scene) (g : ℕ → ℝ) (pt : ℕ → ℕ) :
    ℕ → Ray → ℕ → ℕ → Vector3 × ℕ
  | 0, _, _, ix => (sc.bgColor, ix)
  | fuel + 1, r, depth, ix =>
      if depth > 6 then (sc.bgColor, ix)
      else traceBody sc g pt (fun r2 ix2 => traceAux sc g pt fuel r2 (depth + 1) ix2) r depth ix

/-- `Scene::trace`: the fuel-indexed recursion instantiated with the exact
recursion budget `7 - depth` that the `depth > 6` cap admits. -/
def Scene.trace (sc : Scene) (g : ℕ → ℝ) (pt : ℕ → ℕ) (r : Ray) (depth : ℕ) (ix : ℕ) :
    Vector3 × ℕ :=
  traceAux sc g pt (7 - depth) r depth ix

/-- Per-channel gamma correction of `Scene::render` (source lines 598-600):
`std::pow(std::max(0.0f, std::min(c, 1.0f)), 0.454f)`. -/
def gammaCorrect (c : ℝ) : ℝ := (max 0 (min c 1)) ^ (0.454 : ℝ)

/-! ### Concrete instances used by witnesses and counterexamples

Small scenes exercising the trace: a glass sphere in front of the camera
(`glassScene`), a small occluder under the default ceiling light
(`shadowScene`), and a glass sphere sunk below the floor plane
(`floorScene`).  The random stream and permutation table are irrelevant on
the evaluated paths and are instantiated by constants. -/

/-- Constant random stream (no glossy sampling occurs on the evaluated paths). -/
def g0 : ℕ → ℝ := fun _ => 0

/-- Constant permutation table (no wood texture occurs on the evaluated paths). -/
def p0 : ℕ → ℕ := fun _ => 0

/-- The glass material of the source scene (`init()`): `ka=kd=0`, `ks=0.1`,
`kr=0`, `eta=1.5`, refractive, non-metallic (shininess keeps its default 32). -/
def glassMat : Material :=
  { color := ⟨0.95, 0.95, 0.95⟩, ka := 0, kd := 0, ks := 0.1, kr := 0,
    eta := 1.5, isRefractive := true, isMetallic := false, roughness := 0 }

/-- Unit glass sphere at the origin. -/
def glassSphere : Sphere := ⟨⟨0, 0, 0⟩, 1, glassMat⟩

/-- Scene with only the glass sphere; light and camera moved onto the z-axis
so that the evaluated shading terms stay rational. -/
def glassScene : Scene :=
  { spheres := [glassSphere], boxes := [], lightPos := ⟨0, 0, 5⟩, cameraPos := ⟨0, 0, 5⟩ }

/-- Ray from `(0,0,5)` toward `(0,0,-1)` (the C5 test ray). -/
def c1Ray : Ray := mkRay ⟨0, 0, 5⟩ ⟨0, 0, -1⟩

/-- Ray starting at the center of the glass sphere, pointing down the z-axis
(exits the sphere from inside). -/
def insideRay : Ray := mkRay ⟨0, 0, 0⟩ ⟨0, 0, -1⟩

/-- Small opaque sphere placed just under the default light. -/
def occluder : Sphere := ⟨⟨0, 2.95, 0⟩, 0.03, {}⟩

/-- Scene with only the occluder; default light `(0,2.9,0)`. -/
def shadowScene : Scene := { spheres := [occluder], boxes := [] }

/-- Ray from `(0,5,0)` straight down (the C3 test ray; in `shadowScene` it
hits the inline ceiling plane `y = 3` from above). -/
def downRay : Ray := mkRay ⟨0, 5, 0⟩ ⟨0, -1, 0⟩

/-- Glass sphere sunk below the floor plane. -/
def sunkenGlass : Sphere := ⟨⟨0, -2, 0⟩, 1, glassMat⟩

/-- Scene with only the sunken glass sphere. -/
def floorScene : Scene := { spheres := [sunkenGlass], boxes := [] }

/-- Ray from `(0,2,0)` straight down: it intersects the sunken glass sphere
at `t = 3` but the inline floor plane first at `t = 2`. -/
def floorRay : Ray := mkRay ⟨0, 2, 0⟩ ⟨0, -1, 0⟩

/-- Ray from `(0,1,0)` toward the left wall. -/
def wallRay : Ray := mkRay ⟨0, 1, 0⟩ ⟨-1, 0, 0⟩

/-- The C3 test box spanning `(-1,0,-1)` to `(1,1,1)`. -/
def boxC3 : Box := ⟨⟨-1, 0, -1⟩, ⟨1, 1, 1⟩, {}⟩

/-- The material the inline ceiling override produces from a default
prior material. -/
def ceilMat : Material :=
  { color := ⟨0.85, 0.85, 0.85⟩, ka := 0.1, kd := 0.8, ks := 0.05, kr := 0,
    shininess := 32, eta := 1, roughness := 0, isRefractive := false, isMetallic := false }

/-- Nearest-hit state of `glassScene` for `c1Ray`. -/
def glassHitC1 : HitState :=
  { tMin := 4, hitMat := glassMat, hitPoint := ⟨0, 0, 1⟩, hitNormal := ⟨0, 0, 1⟩,
    hasHit := true, isBox := false }

/-- Nearest-hit state of `glassScene` for `insideRay` (exit hit). -/
def glassHitInside : HitState :=
  { tMin := 1, hitMat := glassMat, hitPoint := ⟨0, 0, -1⟩, hitNormal := ⟨0, 0, -1⟩,
    hasHit := true, isBox := false }

/-- Nearest-hit state of `shadowScene` for `downRay` after the sphere loop
(the occluder at `t = 2.02`). -/
def shadowSphereHit : HitState :=
  { tMin := 2.02, hitMat := {}, hitPoint := ⟨0, 2.98, 0⟩, hitNormal := ⟨0, 1, 0⟩,
    hasHit := true, isBox := false }

/-- Final nearest-hit state of `shadowScene` for `downRay`: the inline
ceiling plane at `t = 2` overrides the occluder hit. -/
def shadowHitCeil : HitState :=
  { tMin := 2, hitMat := ceilMat, hitPoint := ⟨0, 3, 0⟩, hitNormal := ⟨0, -1, 0⟩,
    hasHit := true, isBox := false }

/-- Nearest-hit state of `floorScene` for `floorRay` after the sphere loop
(the sunken glass sphere at `t = 3`). -/
def floorSphereHit : HitState :=
  { tMin := 3, hitMat := glassMat, hitPoint := ⟨0, -1, 0⟩, hitNormal := ⟨0, 1, 0⟩,
    hasHit := true, isBox := false }

/-- Material produced by the inline floor override applied on top of the
recorded glass material: board-pattern color and floor coefficients, with
`isRefractive` and `eta` left at the glass values. -/
def floorGlassMat : Material :=
  { color := ⟨0.405, 0.225, 0.09⟩, ka := 0.15, kd := 0.75, ks := 0.15, kr := 0,
    shininess := 20, eta := 1.5, roughness := 0, isRefractive := true, isMetallic := false }

/-- Final nearest-hit state of `floorScene` for `floorRay`: the inline floor
plane at `t = 2` overrides the glass hit but keeps its refractivity. -/
def floorHit : HitState :=
  { tMin := 2, hitMat := floorGlassMat, hitPoint := ⟨0, 0, 0⟩, hitNormal := ⟨0, 1, 0⟩,
    hasHit := true, isBox := false }

/-! ### Basic lemmas -/

/-- Square-root evaluation helper for the concrete scenes. -/
theorem sqrt_eval {x y : ℝ} (hy : 0 ≤ y) (h : y * y = x) : Real.sqrt x = y := by
  rw [← h]
  exact Real.sqrt_mul_self hy

/-- The result of `traceAux` does not depend on the fuel once the fuel covers
the remaining recursion budget `7 - depth`: the recursion of the source never
descends past depth 6. -/
theorem traceAux_fuel_irrel (sc : Scene) (g : ℕ → ℝ) (pt : ℕ → ℕ) :
    ∀ f1 f2 (r : Ray) (d ix : ℕ), 7 - d ≤ f1 → 7 - d ≤ f2 →
      traceAux sc g pt f1 r d ix = traceAux sc g pt f2 r d ix := by
  intro f1
  induction f1 with
  | zero =>
      intro f2 r d ix h1 _h2
      have hd : 6 < d := by omega
      cases f2 with
      | zero => rfl
      | succ f => simp [traceAux, hd]
  | succ f1 ih =>
      intro f2 r d ix h1 h2
      by_cases hd : 6 < d
      · cases f2 with
        | zero => simp [traceAux, hd]
        | succ f => simp [traceAux, hd]
      · cases f2 with
        | zero => omega
        | succ f2 =>
            simp only [traceAux, if_neg hd]
            have hfun : (fun r2 ix2 => traceAux sc g pt f1 r2 (d + 1) ix2)
                = fun r2 ix2 => traceAux sc g pt f2 r2 (d + 1) ix2 := by
              funext r2 ix2
              exact ih f2 r2 (d + 1) ix2 (by omega) (by omega)
            rw [hfun]

/-- `trace` with `depth > 6` is the background color (the recursion cap). -/
theorem trace_gt6 (sc : Scene) (g : ℕ → ℝ) (pt : ℕ → ℕ) (r : Ray) (d ix : ℕ)
    (hd : 6 < d) : sc.trace g pt r d ix = (sc.bgColor, ix) := by
  unfold Scene.trace
  rw [show 7 - d = 0 by omega]
  simp [traceAux]

/-- Any fuel at least `7 - depth` computes `Scene.trace`. -/
theorem traceAux_eq_trace (sc : Scene) (g : ℕ → ℝ) (pt : ℕ → ℕ) (f : ℕ) (r : Ray)
    (d ix : ℕ) (hf : 7 - d ≤ f) :
    traceAux sc g pt f r d ix = sc.trace g pt r d ix :=
  traceAux_fuel_irrel sc g pt f (7 - d) r d ix hf le_rfl

/-- One-step unfolding of `Scene.trace` below the recursion cap: the body is
`traceBody` with the recursive call at `depth + 1`. -/
theorem trace_unfold (sc : Scene) (g : ℕ → ℝ) (pt : ℕ → ℕ) (r : Ray) (d ix : ℕ)
    (hd : d ≤ 6) :
    sc.trace g pt r d ix
      = traceBody sc g pt (fun r2 ix2 => sc.trace g pt r2 (d + 1) ix2) r d ix := by
  unfold Scene.trace
  rw [show 7 - d = (6 - d) + 1 by omega]
  simp only [traceAux, if_neg (show ¬ 6 < d by omega)]
  have hfun : (fun r2 ix2 => traceAux sc g pt (6 - d) r2 (d + 1) ix2)
      = fun r2 ix2 => traceAux sc g pt (7 - (d + 1)) r2 (d + 1) ix2 := by
    rw [show 7 - (d + 1) = 6 - d by omega]
  rw [hfun]

/-- Normalization evaluation helper: when `s > 0` satisfies
`s² = a² + b² + c²` the normalized vector is the component-wise quotient. -/
theorem normalize_eval {a b c s : ℝ} (hs : 0 < s) (h : s * s = a * a + b * b + c * c) :
    Vector3.normalize ⟨a, b, c⟩ = ⟨a / s, b / s, c / s⟩ := by
  unfold Vector3.normalize
  rw [sqrt_eval hs.le h]
  rw [if_pos hs]
  simp only [Vector3.smul_mk]
  ext <;> field_simp

/-- `Sphere.intersect` with the quadratic coefficients named. -/
theorem sphere_intersect_eval (s : Sphere) (r : Ray) (a b c : ℝ)
    (ha : r.direction.dot r.direction = a)
    (hb : 2 * (r.origin - s.center).dot r.direction = b)
    (hc : (r.origin - s.center).dot (r.origin - s.center) - s.radius * s.radius = c) :
    s.intersect r =
      if b * b - 4 * a * c < 0 then none
      else if (-b - Real.sqrt (b * b - 4 * a * c)) / (2 * a) > 0.001 then
        some ((-b - Real.sqrt (b * b - 4 * a * c)) / (2 * a))
      else if (-b + Real.sqrt (b * b - 4 * a * c)) / (2 * a) > 0.001 then
        some ((-b + Real.sqrt (b * b - 4 * a * c)) / (2 * a))
      else none := by
  subst ha hb hc
  simp only [Sphere.intersect]

/-- `Scene.planeIntersect` with the denominator and distance named. -/
theorem planeIntersect_eval (r : Ray) (point normal : Vector3) (denom tv : ℝ)
    (hd : normal.dot r.direction = denom)
    (ht : (point - r.origin).dot normal / denom = tv) :
    Scene.planeIntersect r point normal =
      if |denom| > 0.001 then (if tv > 0.001 then some tv else none) else none := by
  subst hd ht
  simp only [Scene.planeIntersect]

/-- Components of the concrete rays. -/
theorem c1Ray_origin : c1Ray.origin = ⟨0, 0, 5⟩ := rfl

theorem c1Ray_direction : c1Ray.direction = ⟨0, 0, -1⟩ := by
  unfold c1Ray
  rw [mkRay_direction, normalize_eval one_pos (by norm_num)]
  norm_num

theorem downRay_origin : downRay.origin = ⟨0, 5, 0⟩ := rfl

theorem downRay_direction : downRay.direction = ⟨0, -1, 0⟩ := by
  unfold downRay
  rw [mkRay_direction, normalize_eval one_pos (by norm_num)]
  norm_num

theorem insideRay_origin : insideRay.origin = ⟨0, 0, 0⟩ := rfl

theorem insideRay_direction : insideRay.direction = ⟨0, 0, -1⟩ := by
  unfold insideRay
  rw [mkRay_direction, normalize_eval one_pos (by norm_num)]
  norm_num

theorem floorRay_origin : floorRay.origin = ⟨0, 2, 0⟩ := rfl

theorem floorRay_direction : floorRay.direction = ⟨0, -1, 0⟩ := by
  unfold floorRay
  rw [mkRay_direction, normalize_eval one_pos (by norm_num)]
  norm_num

theorem wallRay_origin : wallRay.origin = ⟨0, 1, 0⟩ := rfl

theorem wallRay_direction : wallRay.direction = ⟨-1, 0, 0⟩ := by
  unfold wallRay
  rw [mkRay_direction, normalize_eval one_pos (by norm_num)]
  norm_num

/-- The C5 test intersection: the glass sphere is hit at `t = 4`. -/
theorem glassSphere_intersect_c1 : glassSphere.intersect c1Ray = some 4 := by
  rw [sphere_intersect_eval glassSphere c1Ray 1 (-10) 24
    (by norm_num [c1Ray_direction, Vector3.dot_mk])
    (by norm_num [c1Ray_origin, c1Ray_direction, glassSphere, Vector3.sub_mk, Vector3.dot_mk])
    (by norm_num [c1Ray_origin, glassSphere, Vector3.sub_mk, Vector3.dot_mk])]
  rw [show Real.sqrt ((-10 : ℝ) * (-10) - 4 * 1 * 24) = 2 from
    sqrt_eval (by norm_num) (by norm_num)]
  norm_num

/-- Unit axis normalizations used by the concrete scenes. -/
theorem normalize_001 : Vector3.normalize ⟨0, 0, 1⟩ = ⟨0, 0, 1⟩ := by
  rw [normalize_eval one_pos (by norm_num)]
  norm_num

theorem normalize_00m1 : Vector3.normalize ⟨0, 0, -1⟩ = ⟨0, 0, -1⟩ := by
  rw [normalize_eval one_pos (by norm_num)]
  norm_num

theorem normalize_010 : Vector3.normalize ⟨0, 1, 0⟩ = ⟨0, 1, 0⟩ := by
  rw [normalize_eval one_pos (by norm_num)]
  norm_num

theorem normalize_0m10 : Vector3.normalize ⟨0, -1, 0⟩ = ⟨0, -1, 0⟩ := by
  rw [normalize_eval one_pos (by norm_num)]
  norm_num

/-- Nearest-hit evaluation of `glassScene` for `c1Ray`: only the glass
sphere is hit (the back wall lies behind it at `t = 6.5`; the other inline
planes are parallel to the ray). -/
theorem findHit_glass_c1 : glassScene.findHit c1Ray = glassHitC1 := by
  have hpoint : c1Ray.origin + (4 : ℝ) • c1Ray.direction = ⟨0, 0, 1⟩ := by
    rw [c1Ray_origin, c1Ray_direction]
    norm_num
  have h1 : sphereStep c1Ray HitState.init glassSphere = glassHitC1 := by
    unfold sphereStep
    rw [glassSphere_intersect_c1]
    simp only [HitState.init]
    rw [if_pos (by norm_num), hpoint]
    rw [show ((⟨0, 0, 1⟩ : Vector3) - glassSphere.center) = ⟨0, 0, 1⟩ by
      simp only [glassSphere, Vector3.sub_mk]; norm_num]
    rw [normalize_001]
    rfl
  have hfl : floorStep c1Ray glassHitC1 = glassHitC1 := by
    unfold floorStep
    rw [planeIntersect_eval c1Ray ⟨0, 0, 0⟩ ⟨0, 1, 0⟩ 0 0
      (by norm_num [c1Ray_direction]) (by norm_num)]
    norm_num
  have hlw : leftWallStep c1Ray glassHitC1 = glassHitC1 := by
    unfold leftWallStep
    rw [planeIntersect_eval c1Ray ⟨-1.5, 0, 0⟩ ⟨1, 0, 0⟩ 0 0
      (by norm_num [c1Ray_direction]) (by norm_num)]
    norm_num
  have hrw : rightWallStep c1Ray glassHitC1 = glassHitC1 := by
    unfold rightWallStep
    rw [planeIntersect_eval c1Ray ⟨1.5, 0, 0⟩ ⟨-1, 0, 0⟩ 0 0
      (by norm_num [c1Ray_direction]) (by norm_num)]
    norm_num
  have hbw : backWallStep c1Ray glassHitC1 = glassHitC1 := by
    unfold backWallStep
    rw [planeIntersect_eval c1Ray ⟨0, 0, -1.5⟩ ⟨0, 0, 1⟩ (-1) 6.5
      (by norm_num [c1Ray_direction])
      (by norm_num [c1Ray_origin])]
    norm_num [glassHitC1]
  have hcl : ceilingStep c1Ray glassHitC1 = glassHitC1 := by
    unfold ceilingStep
    rw [planeIntersect_eval c1Ray ⟨0, 3, 0⟩ ⟨0, -1, 0⟩ 0 0
      (by norm_num [c1Ray_direction]) (by norm_num)]
    norm_num
  unfold Scene.findHit
  simp only [glassScene, List.foldl, h1, hfl, hlw, hrw, hbw, hcl]

/-- The glass sphere seen from its center: exit hit at `t = 1` (the near
root `-1` is rejected by the `0.001` guard). -/
theorem glassSphere_intersect_inside : glassSphere.intersect insideRay = some 1 := by
  rw [sphere_intersect_eval glassSphere insideRay 1 0 (-1)
    (by norm_num [insideRay_direction])
    (by norm_num [insideRay_origin, insideRay_direction, glassSphere])
    (by norm_num [insideRay_origin, glassSphere])]
  rw [show Real.sqrt ((0 : ℝ) * 0 - 4 * 1 * -1) = 2 from sqrt_eval (by norm_num) (by norm_num)]
  norm_num

/-- Nearest-hit evaluation of `glassScene` for `insideRay`: the sphere exit
point `(0,0,-1)` with outward radial normal `(0,0,-1)`. -/
theorem findHit_glass_inside : glassScene.findHit insideRay = glassHitInside := by
  have hpoint : insideRay.origin + (1 : ℝ) • insideRay.direction = ⟨0, 0, -1⟩ := by
    rw [insideRay_origin, insideRay_direction]
    norm_num
  have h1 : sphereStep insideRay HitState.init glassSphere = glassHitInside := by
    unfold sphereStep
    rw [glassSphere_intersect_inside]
    simp only [HitState.init]
    rw [if_pos (by norm_num), hpoint]
    rw [show ((⟨0, 0, -1⟩ : Vector3) - glassSphere.center) = ⟨0, 0, -1⟩ by
      simp only [glassSphere, Vector3.sub_mk]; norm_num]
    rw [normalize_00m1]
    rfl
  have hfl : floorStep insideRay glassHitInside = glassHitInside := by
    unfold floorStep
    rw [planeIntersect_eval insideRay ⟨0, 0, 0⟩ ⟨0, 1, 0⟩ 0 0
      (by norm_num [insideRay_direction]) (by norm_num)]
    norm_num
  have hlw : leftWallStep insideRay glassHitInside = glassHitInside := by
    unfold leftWallStep
    rw [planeIntersect_eval insideRay ⟨-1.5, 0, 0⟩ ⟨1, 0, 0⟩ 0 0
      (by norm_num [insideRay_direction]) (by norm_num)]
    norm_num
  have hrw : rightWallStep insideRay glassHitInside = glassHitInside := by
    unfold rightWallStep
    rw [planeIntersect_eval insideRay ⟨1.5, 0, 0⟩ ⟨-1, 0, 0⟩ 0 0
      (by norm_num [insideRay_direction]) (by norm_num)]
    norm_num
  have hbw : backWallStep insideRay glassHitInside = glassHitInside := by
    unfold backWallStep
    rw [planeIntersect_eval insideRay ⟨0, 0, -1.5⟩ ⟨0, 0, 1⟩ (-1) 1.5
      (by norm_num [insideRay_direction])
      (by norm_num [insideRay_origin])]
    norm_num [glassHitInside]
  have hcl : ceilingStep insideRay glassHitInside = glassHitInside := by
    unfold ceilingStep
    rw [planeIntersect_eval insideRay ⟨0, 3, 0⟩ ⟨0, -1, 0⟩ 0 0
      (by norm_num [insideRay_direction]) (by norm_num)]
    norm_num
  unfold Scene.findHit
  simp only [glassScene, List.foldl, h1, hfl, hlw, hrw, hbw, hcl]

/-- The occluder sphere on the downward primary ray: hit at `t = 2.02`. -/
theorem occluder_intersect_down : occluder.intersect downRay = some 2.02 := by
  rw [sphere_intersect_eval occluder downRay 1 (-4.1) 4.2016
    (by norm_num [downRay_direction])
    (by norm_num [downRay_origin, downRay_direction, occluder])
    (by norm_num [downRay_origin, occluder])]
  rw [show Real.sqrt ((-4.1 : ℝ) * (-4.1) - 4 * 1 * 4.2016) = 0.06 from
    sqrt_eval (by norm_num) (by norm_num)]
  norm_num

/-- Nearest-hit evaluation of `shadowScene` for `downRay`: the occluder is
recorded at `t = 2.02`, then the inline ceiling plane takes over at `t = 2`. -/
theorem findHit_shadow_down : shadowScene.findHit downRay = shadowHitCeil := by
  have hpoint : downRay.origin + (2.02 : ℝ) • downRay.direction = ⟨0, 2.98, 0⟩ := by
    rw [downRay_origin, downRay_direction]
    norm_num
  have h1 : sphereStep downRay HitState.init occluder = shadowSphereHit := by
    unfold sphereStep
    rw [occluder_intersect_down]
    simp only [HitState.init]
    rw [if_pos (by norm_num), hpoint]
    rw [show ((⟨0, 2.98, 0⟩ : Vector3) - occluder.center) = ⟨0, 0.03, 0⟩ by
      simp only [occluder, Vector3.sub_mk]; norm_num]
    rw [show Vector3.normalize ⟨0, 0.03, 0⟩ = ⟨0, 1, 0⟩ by
      rw [normalize_eval (show (0 : ℝ) < 0.03 by norm_num) (by norm_num)]; norm_num]
    rfl
  have hfl : floorStep downRay shadowSphereHit = shadowSphereHit := by
    unfold floorStep
    rw [planeIntersect_eval downRay ⟨0, 0, 0⟩ ⟨0, 1, 0⟩ (-1) 5
      (by norm_num [downRay_direction])
      (by norm_num [downRay_origin])]
    norm_num [shadowSphereHit]
  have hlw : leftWallStep downRay shadowSphereHit = shadowSphereHit := by
    unfold leftWallStep
    rw [planeIntersect_eval downRay ⟨-1.5, 0, 0⟩ ⟨1, 0, 0⟩ 0 0
      (by norm_num [downRay_direction]) (by norm_num)]
    norm_num
  have hrw : rightWallStep downRay shadowSphereHit = shadowSphereHit := by
    unfold rightWallStep
    rw [planeIntersect_eval downRay ⟨1.5, 0, 0⟩ ⟨-1, 0, 0⟩ 0 0
      (by norm_num [downRay_direction]) (by norm_num)]
    norm_num
  have hbw : backWallStep downRay shadowSphereHit = shadowSphereHit := by
    unfold backWallStep
    rw [planeIntersect_eval downRay ⟨0, 0, -1.5⟩ ⟨0, 0, 1⟩ 0 0
      (by norm_num [downRay_direction]) (by norm_num)]
    norm_num
  have hcl : ceilingStep downRay shadowSphereHit = shadowHitCeil := by
    unfold ceilingStep
    rw [planeIntersect_eval downRay ⟨0, 3, 0⟩ ⟨0, -1, 0⟩ 1 2
      (by norm_num [downRay_direction])
      (by norm_num [downRay_origin])]
    norm_num [shadowSphereHit, shadowHitCeil, ceilMat, downRay_origin, downRay_direction]
  unfold Scene.findHit
  simp only [shadowScene, List.foldl, h1, hfl, hlw, hrw, hbw, hcl]

/-- The sunken glass sphere on the downward ray from `(0,2,0)`: hit at `t = 3`. -/
theorem sunkenGlass_intersect_floor : sunkenGlass.intersect floorRay = some 3 := by
  rw [sphere_intersect_eval sunkenGlass floorRay 1 (-8) 15
    (by norm_num [floorRay_direction])
    (by norm_num [floorRay_origin, floorRay_direction, sunkenGlass])
    (by norm_num [floorRay_origin, sunkenGlass])]
  rw [show Real.sqrt ((-8 : ℝ) * (-8) - 4 * 1 * 15) = 2 from sqrt_eval (by norm_num) (by norm_num)]
  norm_num

/-- The sphere stage of `floorScene.findHit floorRay` records the sunken
glass sphere. -/
theorem sphereStep_floor : sphereStep floorRay HitState.init sunkenGlass = floorSphereHit := by
  have hpoint : floorRay.origin + (3 : ℝ) • floorRay.direction = ⟨0, -1, 0⟩ := by
    rw [floorRay_origin, floorRay_direction]
    norm_num
  unfold sphereStep
  rw [sunkenGlass_intersect_floor]
  simp only [HitState.init]
  rw [if_pos (by norm_num), hpoint]
  rw [show ((⟨0, -1, 0⟩ : Vector3) - sunkenGlass.center) = ⟨0, 1, 0⟩ by
    simp only [sunkenGlass, Vector3.sub_mk]; norm_num]
  rw [normalize_010]
  rfl

/-- The full sphere-and-box stage of `floorScene.findHit floorRay`. -/
theorem sphereStage_floor :
    floorScene.boxes.foldl (boxStep floorRay)
      (floorScene.spheres.foldl (sphereStep floorRay) HitState.init) = floorSphereHit := by
  simp only [floorScene, List.foldl, sphereStep_floor]

/-- Nearest-hit evaluation of `floorScene` for `floorRay`: the glass sphere
is recorded at `t = 3`, then the inline floor plane takes over at `t = 2`,
keeping the glass `isRefractive`/`eta`. -/
theorem findHit_floor : floorScene.findHit floorRay = floorHit := by
  have h1 : sphereStep floorRay HitState.init sunkenGlass = floorSphereHit :=
    sphereStep_floor
  have hfl : floorStep floorRay floorSphereHit = floorHit := by
    unfold floorStep
    rw [planeIntersect_eval floorRay ⟨0, 0, 0⟩ ⟨0, 1, 0⟩ (-1) 2
      (by norm_num [floorRay_direction])
      (by norm_num [floorRay_origin])]
    norm_num [floorSphereHit, floorHit, floorGlassMat, glassMat,
      floorRay_origin, floorRay_direction, rtrunc,
      show Int.tmod 0 2 = 0 from rfl, Real.sin_zero]
  have hlw : leftWallStep floorRay floorHit = floorHit := by
    unfold leftWallStep
    rw [planeIntersect_eval floorRay ⟨-1.5, 0, 0⟩ ⟨1, 0, 0⟩ 0 0
      (by norm_num [floorRay_direction]) (by norm_num)]
    norm_num
  have hrw : rightWallStep floorRay floorHit = floorHit := by
    unfold rightWallStep
    rw [planeIntersect_eval floorRay ⟨1.5, 0, 0⟩ ⟨-1, 0, 0⟩ 0 0
      (by norm_num [floorRay_direction]) (by norm_num)]
    norm_num
  have hbw : backWallStep floorRay floorHit = floorHit := by
    unfold backWallStep
    rw [planeIntersect_eval floorRay ⟨0, 0, -1.5⟩ ⟨0, 0, 1⟩ 0 0
      (by norm_num [floorRay_direction]) (by norm_num)]
    norm_num
  have hcl : ceilingStep floorRay floorHit = floorHit := by
    unfold ceilingStep
    rw [planeIntersect_eval floorRay ⟨0, 3, 0⟩ ⟨0, -1, 0⟩ 1 (-1)
      (by norm_num [floorRay_direction])
      (by norm_num [floorRay_origin])]
    norm_num
  unfold Scene.findHit
  simp only [floorScene, List.foldl, h1, hfl, hlw, hrw, hbw, hcl]

/-- The glass-sphere shadow ray from the hit point `(0,0,1)` toward the
light at `(0,0,5)` misses the sphere (both roots fail the `0.001` guard). -/
theorem glassSphere_shadow_miss :
    glassSphere.intersect ⟨⟨0, 0, 1.001⟩, ⟨0, 0, 1⟩⟩ = none := by
  rw [sphere_intersect_eval glassSphere ⟨⟨0, 0, 1.001⟩, ⟨0, 0, 1⟩⟩ 1 2.002 0.002001
    (by norm_num) (by norm_num [glassSphere]) (by norm_num [glassSphere])]
  rw [show Real.sqrt ((2.002 : ℝ) * 2.002 - 4 * 1 * 0.002001) = 2 from
    sqrt_eval (by norm_num) (by norm_num)]
  norm_num

/-- The hit point `(0,0,1)` of `glassScene` is not in shadow. -/
theorem inShadow_glass : glassScene.inShadow ⟨0, 0, 1⟩ ⟨0, 0, 1⟩ = false := by
  simp only [Scene.inShadow, glassScene]
  rw [show ((⟨0, 0, 5⟩ : Vector3) - ⟨0, 0, 1⟩) = ⟨0, 0, 4⟩ by norm_num]
  rw [show Vector3.normalize ⟨0, 0, 4⟩ = ⟨0, 0, 1⟩ by
    rw [normalize_eval (show (0 : ℝ) < 4 by norm_num) (by norm_num)]; norm_num]
  rw [show ((⟨0, 0, 1⟩ : Vector3) + (0.001 : ℝ) • ⟨0, 0, 1⟩) = ⟨0, 0, 1.001⟩ by norm_num]
  rw [show mkRay ⟨0, 0, 1.001⟩ ⟨0, 0, 1⟩ = ⟨⟨0, 0, 1.001⟩, ⟨0, 0, 1⟩⟩ by
    unfold mkRay; rw [normalize_001]]
  simp only [List.any_cons, List.any_nil, sphereOccludes, glassSphere_shadow_miss,
    Bool.or_false]

/-- Field values of the concrete scenes. -/
theorem glassScene_lightPos : glassScene.lightPos = ⟨0, 0, 5⟩ := rfl

theorem glassScene_lightColor : glassScene.lightColor = ⟨1.5, 1.5, 1.5⟩ := rfl

theorem glassScene_cameraPos : glassScene.cameraPos = ⟨0, 0, 5⟩ := rfl

theorem glassScene_bgColor : glassScene.bgColor = ⟨0.85, 0.85, 0.85⟩ := rfl

/-- Local illumination of the glass material at `(0,0,1)` in `glassScene`:
no ambient or diffuse (`ka = kd = 0`), specular `0.1·lightColor·1·(1/1.8)`. -/
theorem localIllum_glass :
    glassScene.localIllum glassMat ⟨0, 0, 1⟩ ⟨0, 0, 1⟩ = ⟨1 / 12, 1 / 12, 1 / 12⟩ := by
  simp only [Scene.localIllum, glassScene_lightPos, glassScene_lightColor,
    glassScene_cameraPos]
  rw [show ((⟨0, 0, 5⟩ : Vector3) - ⟨0, 0, 1⟩) = ⟨0, 0, 4⟩ by norm_num]
  rw [show Vector3.normalize ⟨0, 0, 4⟩ = ⟨0, 0, 1⟩ by
    rw [normalize_eval (show (0 : ℝ) < 4 by norm_num) (by norm_num)]; norm_num]
  rw [show (⟨0, 0, 4⟩ : Vector3).length = 4 by
    simp only [Vector3.length_mk]; exact sqrt_eval (by norm_num) (by norm_num)]
  rw [if_pos inShadow_glass]
  rw [show max 0 ((⟨0, 0, 1⟩ : Vector3).dot ⟨0, 0, 1⟩) = 1 by
    norm_num [Vector3.dot_mk]]
  rw [show ((2 * (⟨0, 0, 1⟩ : Vector3).dot ⟨0, 0, 1⟩) • (⟨0, 0, 1⟩ : Vector3) - ⟨0, 0, 1⟩)
      = ⟨0, 0, 1⟩ by norm_num]
  rw [normalize_001]
  rw [show max 0 ((⟨0, 0, 1⟩ : Vector3).dot ⟨0, 0, 1⟩) = 1 by norm_num [Vector3.dot_mk]]
  rw [Real.one_rpow]
  norm_num [glassMat]

/-- `Scene::trace` on the refractive hit of `glassScene` at depth 6: the
refractive guard `depth < 6` fails, so the glass sphere receives local Phong
shading. -/
theorem trace_glass_depth6 :
    glassScene.trace g0 p0 c1Ray 6 0 = (⟨1 / 12, 1 / 12, 1 / 12⟩, 0) := by
  rw [trace_unfold glassScene g0 p0 c1Ray 6 0 le_rfl]
  simp only [traceBody, findHit_glass_c1]
  rw [if_neg (by simp [glassHitC1])]
  rw [show (if glassHitC1.isBox = true then
      { glassHitC1.hitMat with
        color := getWoodTextureColor p0 glassHitC1.hitPoint glassHitC1.hitNormal }
      else glassHitC1.hitMat) = glassMat by simp [glassHitC1]]
  rw [if_neg (by simp)]
  rw [show glassHitC1.hitPoint = ⟨0, 0, 1⟩ from rfl,
    show glassHitC1.hitNormal = ⟨0, 0, 1⟩ from rfl]
  rw [localIllum_glass]
  rw [if_neg (by simp [glassMat])]

/-- The Fresnel blend that the refractive branch would produce for the
`glassScene` hit when its two recursive rays are traced at depth 7: both
return the background, so the blend is the background color. -/
theorem refractiveShade_glass_depth7 :
    refractiveShade (fun r2 ix2 => glassScene.trace g0 p0 r2 7 ix2)
      c1Ray.direction glassHitC1.hitPoint glassHitC1.hitNormal glassHitC1.hitMat.eta 0
    = (⟨0.85, 0.85, 0.85⟩, 0) := by
  rw [show glassHitC1.hitPoint = ⟨0, 0, 1⟩ from rfl,
    show glassHitC1.hitNormal = ⟨0, 0, 1⟩ from rfl,
    show glassHitC1.hitMat.eta = 1.5 from rfl, c1Ray_direction]
  simp only [refractiveShade]
  rw [show refractGeom ⟨0, 0, -1⟩ ⟨0, 0, 1⟩ 1.5 = (1, ⟨0, 0, 1⟩, 1.5) by
    unfold refractGeom; norm_num]
  rw [if_pos (by norm_num)]
  simp only [trace_gt6 glassScene g0 p0 _ 7 _ (by norm_num), glassScene_bgColor]
  norm_num [fresnelSchlick]

/-- The entering-case refraction geometry of the `c1Ray` glass hit. -/
theorem refractGeom_entering_c1 :
    refractGeom ⟨0, 0, -1⟩ ⟨0, 0, 1⟩ 1.5 = (1, ⟨0, 0, 1⟩, 1.5) := by
  unfold refractGeom
  norm_num

/-- The occluder on the ceiling shadow ray: hit at `t = 0.019`. -/
theorem occluder_intersect_shadowRay :
    occluder.intersect ⟨⟨0, 2.999, 0⟩, ⟨0, -1, 0⟩⟩ = some 0.019 := by
  rw [sphere_intersect_eval occluder ⟨⟨0, 2.999, 0⟩, ⟨0, -1, 0⟩⟩ 1 (-0.098) 0.001501
    (by norm_num) (by norm_num [occluder]) (by norm_num [occluder])]
  rw [show Real.sqrt ((-0.098 : ℝ) * (-0.098) - 4 * 1 * 0.001501) = 0.06 from
    sqrt_eval (by norm_num) (by norm_num)]
  norm_num

theorem shadowScene_lightPos : shadowScene.lightPos = ⟨0, 2.9, 0⟩ := rfl

/-- The ceiling point `(0,3,0)` of `shadowScene` is in shadow: the occluder
cuts the shadow ray at `t = 0.019 < 0.099`. -/
theorem inShadow_shadow : shadowScene.inShadow ⟨0, 3, 0⟩ ⟨0, -1, 0⟩ = true := by
  simp only [Scene.inShadow, shadowScene_lightPos]
  rw [show ((⟨0, 2.9, 0⟩ : Vector3) - ⟨0, 3, 0⟩) = ⟨0, -0.1, 0⟩ by norm_num]
  rw [show Vector3.normalize ⟨0, -0.1, 0⟩ = ⟨0, -1, 0⟩ by
    rw [normalize_eval (show (0 : ℝ) < 0.1 by norm_num) (by norm_num)]; norm_num]
  rw [show (⟨0, -0.1, 0⟩ : Vector3).length = 0.1 by
    simp only [Vector3.length_mk]; exact sqrt_eval (by norm_num) (by norm_num)]
  rw [show ((⟨0, 3, 0⟩ : Vector3) + (0.001 : ℝ) • ⟨0, -1, 0⟩) = ⟨0, 2.999, 0⟩ by norm_num]
  rw [show mkRay ⟨0, 2.999, 0⟩ ⟨0, -1, 0⟩ = ⟨⟨0, 2.999, 0⟩, ⟨0, -1, 0⟩⟩ by
    unfold mkRay; rw [normalize_0m10]]
  simp only [show shadowScene.spheres = [occluder] from rfl,
    show shadowScene.boxes = ([] : List Box) from rfl, List.any_cons, List.any_nil,
    sphereOccludes, occluder_intersect_shadowRay]
  norm_num

/-- The sphere shadow predicate holds exactly when the sphere cuts the
shadow ray before the light. -/
theorem sphereOccludes_iff (ray : Ray) (bound : ℝ) (s : Sphere) :
    sphereOccludes ray bound s = true ↔ ∃ t, s.intersect ray = some t ∧ t < bound := by
  unfold sphereOccludes
  cases h : s.intersect ray <;> simp [h]

/-- The box shadow predicate holds exactly when the box cuts the shadow ray
before the light. -/
theorem boxOccludes_iff (ray : Ray) (bound : ℝ) (b : Box) :
    boxOccludes ray bound b = true ↔
      ∃ t n, b.intersect ray = some (t, n) ∧ t < bound := by
  unfold boxOccludes
  cases h : b.intersect ray with
  | none => simp [h]
  | some p => cases p with | mk t0 n0 => simp [h]

/-! ### Refractive branch of the trace -/

/-- The wood-texture override of box hits changes only the color, so the
effective material of a hit keeps the recorded `isRefractive` and `eta`. -/
theorem effectiveMat_refr_eta (pt : ℕ → ℕ) (st : HitState) :
    (if st.isBox then
        { st.hitMat with color := getWoodTextureColor pt st.hitPoint st.hitNormal }
      else st.hitMat).isRefractive = st.hitMat.isRefractive ∧
    (if st.isBox then
        { st.hitMat with color := getWoodTextureColor pt st.hitPoint st.hitNormal }
      else st.hitMat).eta = st.hitMat.eta := by
  by_cases h : st.isBox <;> simp [h]

/-- Shared lemma: below the recursion cap, a nearest hit whose recorded
material is refractive is shaded exclusively by `refractiveShade`, with the
recursive calls at `depth + 1`. -/
theorem trace_refractive (sc : Scene) (g : ℕ → ℝ) (pt : ℕ → ℕ) (r : Ray) (d ix : ℕ)
    (hd : d < 6) (hh : (sc.findHit r).hasHit = true)
    (hr : (sc.findHit r).hitMat.isRefractive = true) :
    sc.trace g pt r d ix
      = refractiveShade (fun r2 ix2 => sc.trace g pt r2 (d + 1) ix2)
          r.direction (sc.findHit r).hitPoint (sc.findHit r).hitNormal
          (sc.findHit r).hitMat.eta ix := by
  rw [trace_unfold sc g pt r d ix (by omega)]
  simp only [traceBody, hh]
  rw [if_neg (by simp)]
  by_cases hbox : (sc.findHit r).isBox <;>
    simp [hbox, hr, hd]

/-- C1 (amended): at every depth `d < 6` at which `Scene::trace` finds a
nearest hit whose recorded material is refractive, the returned color is the
Schlick-Fresnel blend of the recursively traced refraction ray and mirror
ray (weights `1 - fresnel` and `fresnel`), or the recursively traced mirror
ray alone under total internal reflection; no local-illumination term and no
`kr`-weighted blend enters the result.  (The source guard is
`isRefractive && depth < 6`, so at `depth = 6` a refractive hit instead
receives local shading — see the counterexample.) -/
theorem refractive_hit_blend (sc : Scene) (g : ℕ → ℝ) (pt : ℕ → ℕ) (r : Ray)
    (d ix : ℕ) (P N : Vector3) (E cosI : ℝ) (n : Vector3) (eta : ℝ)
    (hd : d < 6) (hh : (sc.findHit r).hasHit = true)
    (hr : (sc.findHit r).hitMat.isRefractive = true)
    (hP : (sc.findHit r).hitPoint = P) (hN : (sc.findHit r).hitNormal = N)
    (hE : (sc.findHit r).hitMat.eta = E)
    (hgeom : refractGeom r.direction N E = (cosI, n, eta)) :
    (eta * eta * (1 - cosI * cosI) < 1 →
      sc.trace g pt r d ix =
        ((1 - fresnelSchlick cosI eta) •
            (sc.trace g pt (refractRayOf r.direction P N E) (d + 1) ix).1
          + fresnelSchlick cosI eta •
            (sc.trace g pt (reflectRayOfNoTIR r.direction P N) (d + 1)
              (sc.trace g pt (refractRayOf r.direction P N E) (d + 1) ix).2).1,
         (sc.trace g pt (reflectRayOfNoTIR r.direction P N) (d + 1)
           (sc.trace g pt (refractRayOf r.direction P N E) (d + 1) ix).2).2)) ∧
    (1 ≤ eta * eta * (1 - cosI * cosI) →
      sc.trace g pt r d ix =
        sc.trace g pt
          (mkRay (P + (0.001 : ℝ) • n) ((r.direction - (2 * r.direction.dot n) • n).normalize))
          (d + 1) ix) := by
  have h := trace_refractive sc g pt r d ix hd hh hr
  rw [hP, hN, hE] at h
  constructor
  · intro hsin
    rw [h]
    simp only [refractiveShade, hgeom]
    rw [if_pos hsin]
  · intro hsin
    rw [h]
    simp only [refractiveShade, hgeom]
    rw [if_neg (not_lt.mpr hsin)]


/-! ### C1: refractive hits never receive local shading (amended: depth < 6) -/

/-- C1 counterexample: at depth 6 the refractive guard `depth < 6` fails, so
`Scene::trace` finds a nearest refractive hit yet returns its local Phong
shading `(1/12, 1/12, 1/12)`, not the Fresnel blend of the recursively
traced refraction/reflection rays (which here is the background color). -/
theorem trace_refractive_depth6_counterexample :
    (glassScene.findHit c1Ray).hasHit = true ∧
    (glassScene.findHit c1Ray).hitMat.isRefractive = true ∧
    glassScene.trace g0 p0 c1Ray 6 0 = (⟨1 / 12, 1 / 12, 1 / 12⟩, 0) ∧
    refractiveShade (fun r2 ix2 => glassScene.trace g0 p0 r2 7 ix2)
      c1Ray.direction (glassScene.findHit c1Ray).hitPoint
      (glassScene.findHit c1Ray).hitNormal (glassScene.findHit c1Ray).hitMat.eta 0
      = (⟨0.85, 0.85, 0.85⟩, 0) ∧
    (⟨1 / 12, 1 / 12, 1 / 12⟩ : Vector3) ≠ ⟨0.85, 0.85, 0.85⟩ := by
  refine ⟨by rw [findHit_glass_c1]; rfl, by rw [findHit_glass_c1]; rfl,
    trace_glass_depth6, by rw [findHit_glass_c1]; exact refractiveShade_glass_depth7, ?_⟩
  intro h
  rw [Vector3.mk.injEq] at h
  norm_num at h

/-- Witness for the amended C1 theorem at the `glassScene` hit, depth 0. -/
theorem refractive_hit_blend_witness :
    glassScene.trace g0 p0 c1Ray 0 0 =
      ((1 - fresnelSchlick 1 1.5) •
          (glassScene.trace g0 p0 (refractRayOf c1Ray.direction ⟨0, 0, 1⟩ ⟨0, 0, 1⟩ 1.5) 1 0).1
        + fresnelSchlick 1 1.5 •
          (glassScene.trace g0 p0 (reflectRayOfNoTIR c1Ray.direction ⟨0, 0, 1⟩ ⟨0, 0, 1⟩) 1
            (glassScene.trace g0 p0 (refractRayOf c1Ray.direction ⟨0, 0, 1⟩ ⟨0, 0, 1⟩ 1.5) 1 0).2).1,
       (glassScene.trace g0 p0 (reflectRayOfNoTIR c1Ray.direction ⟨0, 0, 1⟩ ⟨0, 0, 1⟩) 1
         (glassScene.trace g0 p0 (refractRayOf c1Ray.direction ⟨0, 0, 1⟩ ⟨0, 0, 1⟩ 1.5) 1 0).2).2) :=
  (refractive_hit_blend glassScene g0 p0 c1Ray 0 0 ⟨0, 0, 1⟩ ⟨0, 0, 1⟩ 1.5 1 ⟨0, 0, 1⟩ 1.5
    (by norm_num) (by rw [findHit_glass_c1]; rfl) (by rw [findHit_glass_c1]; rfl)
    (by rw [findHit_glass_c1]; rfl) (by rw [findHit_glass_c1]; rfl)
    (by rw [findHit_glass_c1]; rfl)
    (by rw [c1Ray_direction]; exact refractGeom_entering_c1)).1 (by norm_num)

/-! ### C2: recursion depth cap and exact fuel bound -/

/-- C2: `Scene::trace` with `depth > 6` returns the background color, and
every recursive self-call occurs at `depth + 1` under the guard `depth < 6`,
so the recursion budget `7 - depth` (depths `0..6` from a `trace(ray, 0)`
call) is exact: any fuel at least `7 - depth` computes the same total
function `Scene.trace`. -/
theorem trace_depth_cap (sc : Scene) (g : ℕ → ℝ) (pt : ℕ → ℕ) :
    (∀ (r : Ray) (d ix : ℕ), 6 < d → sc.trace g pt r d ix = (sc.bgColor, ix)) ∧
    ∀ (f : ℕ) (r : Ray) (d ix : ℕ), 7 - d ≤ f →
      traceAux sc g pt f r d ix = sc.trace g pt r d ix :=
  ⟨fun r d ix hd => trace_gt6 sc g pt r d ix hd,
   fun f r d ix hf => traceAux_eq_trace sc g pt f r d ix hf⟩

/-- Witness for C2: depth 7 yields the background, and fuel 9 agrees with
the canonical budget 7 at depth 0. -/
theorem trace_depth_cap_witness :
    glassScene.trace g0 p0 c1Ray 7 0 = (glassScene.bgColor, 0) ∧
    traceAux glassScene g0 p0 9 c1Ray 0 0 = glassScene.trace g0 p0 c1Ray 0 0 :=
  ⟨(trace_depth_cap glassScene g0 p0).1 c1Ray 7 0 (by norm_num),
   (trace_depth_cap glassScene g0 p0).2 9 c1Ray 0 0 (by norm_num)⟩

/-! ### C6: shadow classification and shadowed color -/

/-- C6: a shaded hit point is classified in shadow exactly when some sphere
or some box cuts the shadow ray (spawned at `hitPoint + 0.001·normal` toward
the light) strictly before `lightDist - 0.001`; and a shaded hit point in
shadow whose effective material has `kr = 0` yields exactly the halved
ambient color `0.5·ka·color`.  (As in the source, the shadow path is the
local-illumination path: the hit must exist and not take the refractive
branch, and `depth ≤ 6`.) -/
theorem shadow_classification_and_color :
    (∀ (sc : Scene) (hitPoint hitNormal : Vector3),
      sc.inShadow hitPoint hitNormal = true ↔
        ((∃ s ∈ sc.spheres, ∃ t, s.intersect
            (mkRay (hitPoint + (0.001 : ℝ) • hitNormal) ((sc.lightPos - hitPoint).normalize))
            = some t ∧ t < (sc.lightPos - hitPoint).length - 0.001) ∨
         (∃ b ∈ sc.boxes, ∃ t n, b.intersect
            (mkRay (hitPoint + (0.001 : ℝ) • hitNormal) ((sc.lightPos - hitPoint).normalize))
            = some (t, n) ∧ t < (sc.lightPos - hitPoint).length - 0.001))) ∧
    ∀ (sc : Scene) (g : ℕ → ℝ) (pt : ℕ → ℕ) (r : Ray) (d ix : ℕ) (M : Material),
      d ≤ 6 → (sc.findHit r).hasHit = true →
      (if (sc.findHit r).isBox = true then
          { (sc.findHit r).hitMat with
            color := getWoodTextureColor pt (sc.findHit r).hitPoint (sc.findHit r).hitNormal }
        else (sc.findHit r).hitMat) = M →
      ¬(M.isRefractive = true ∧ d < 6) →
      sc.inShadow (sc.findHit r).hitPoint (sc.findHit r).hitNormal = true →
      M.kr = 0 →
      sc.trace g pt r d ix = ((M.ka * 0.5) • M.color, ix) := by
  constructor
  · intro sc hitPoint hitNormal
    simp only [Scene.inShadow, List.any_eq_true, Bool.or_eq_true, sphereOccludes_iff,
      boxOccludes_iff]
  · intro sc g pt r d ix M hd6 hh hM hrefr hshadow hkr
    rw [trace_unfold sc g pt r d ix hd6]
    simp only [traceBody]
    rw [if_neg (by simp [hh]), hM, if_neg hrefr]
    simp only [Scene.localIllum]
    rw [if_neg (by rw [hkr]; simp)]
    rw [if_neg (by rw [hshadow]; simp)]

/-- Witness for C6 in `shadowScene`: the occluded ceiling point returns the
halved ambient `0.5 · 0.1 · (0.85, 0.85, 0.85)`. -/
theorem shadow_classification_and_color_witness :
    shadowScene.inShadow ⟨0, 3, 0⟩ ⟨0, -1, 0⟩ = true ∧
    shadowScene.trace g0 p0 downRay 0 0 = ((0.0425 : ℝ) • (⟨1, 1, 1⟩ : Vector3), 0) := by
  refine ⟨inShadow_shadow, ?_⟩
  have h := shadow_classification_and_color.2 shadowScene g0 p0 downRay 0 0 ceilMat
    (by norm_num) (by rw [findHit_shadow_down]; rfl)
    (by rw [findHit_shadow_down]; simp [shadowHitCeil])
    (by norm_num [ceilMat]) (by rw [findHit_shadow_down]; exact inShadow_shadow)
    (by norm_num [ceilMat])
  rw [h]
  norm_num [ceilMat]

/-! ### Plane overrides and the recorded material -/

/-- The inline floor override never assigns `isRefractive` or `eta`. -/
theorem floorStep_keeps (r : Ray) (st : HitState) :
    (floorStep r st).hitMat.isRefractive = st.hitMat.isRefractive ∧
    (floorStep r st).hitMat.eta = st.hitMat.eta := by
  unfold floorStep
  cases hp : Scene.planeIntersect r ⟨0, 0, 0⟩ ⟨0, 1, 0⟩ with
  | none => exact ⟨rfl, rfl⟩
  | some t =>
      dsimp only
      split_ifs <;> simp

/-- The inline left-wall override never assigns `isRefractive` or `eta`. -/
theorem leftWallStep_keeps (r : Ray) (st : HitState) :
    (leftWallStep r st).hitMat.isRefractive = st.hitMat.isRefractive ∧
    (leftWallStep r st).hitMat.eta = st.hitMat.eta := by
  unfold leftWallStep
  cases hp : Scene.planeIntersect r ⟨-1.5, 0, 0⟩ ⟨1, 0, 0⟩ with
  | none => exact ⟨rfl, rfl⟩
  | some t =>
      dsimp only
      split_ifs <;> simp

/-- The inline right-wall override never assigns `isRefractive` or `eta`. -/
theorem rightWallStep_keeps (r : Ray) (st : HitState) :
    (rightWallStep r st).hitMat.isRefractive = st.hitMat.isRefractive ∧
    (rightWallStep r st).hitMat.eta = st.hitMat.eta := by
  unfold rightWallStep
  cases hp : Scene.planeIntersect r ⟨1.5, 0, 0⟩ ⟨-1, 0, 0⟩ with
  | none => exact ⟨rfl, rfl⟩
  | some t =>
      dsimp only
      split_ifs <;> simp

/-- The inline back-wall override never assigns `isRefractive` or `eta`. -/
theorem backWallStep_keeps (r : Ray) (st : HitState) :
    (backWallStep r st).hitMat.isRefractive = st.hitMat.isRefractive ∧
    (backWallStep r st).hitMat.eta = st.hitMat.eta := by
  unfold backWallStep
  cases hp : Scene.planeIntersect r ⟨0, 0, -1.5⟩ ⟨0, 0, 1⟩ with
  | none => exact ⟨rfl, rfl⟩
  | some t =>
      dsimp only
      split_ifs <;> simp

/-- The inline ceiling override never assigns `isRefractive` or `eta`. -/
theorem ceilingStep_keeps (r : Ray) (st : HitState) :
    (ceilingStep r st).hitMat.isRefractive = st.hitMat.isRefractive ∧
    (ceilingStep r st).hitMat.eta = st.hitMat.eta := by
  unfold ceilingStep
  cases hp : Scene.planeIntersect r ⟨0, 3, 0⟩ ⟨0, -1, 0⟩ with
  | none => exact ⟨rfl, rfl⟩
  | some t =>
      dsimp only
      split_ifs <;> simp

/-- The five inline plane tests together preserve the `isRefractive`/`eta`
recorded by the sphere-and-box stage of the nearest-hit search. -/
theorem findHit_keeps (sc : Scene) (r : Ray) :
    (sc.findHit r).hitMat.isRefractive
        = (sc.boxes.foldl (boxStep r)
            (sc.spheres.foldl (sphereStep r) HitState.init)).hitMat.isRefractive ∧
    (sc.findHit r).hitMat.eta
        = (sc.boxes.foldl (boxStep r)
            (sc.spheres.foldl (sphereStep r) HitState.init)).hitMat.eta := by
  unfold Scene.findHit
  set st := sc.boxes.foldl (boxStep r) (sc.spheres.foldl (sphereStep r) HitState.init) with hst
  have h1 := floorStep_keeps r st
  have h2 := leftWallStep_keeps r (floorStep r st)
  have h3 := rightWallStep_keeps r (leftWallStep r (floorStep r st))
  have h4 := backWallStep_keeps r (rightWallStep r (leftWallStep r (floorStep r st)))
  have h5 := ceilingStep_keeps r
    (backWallStep r (rightWallStep r (leftWallStep r (floorStep r st))))
  exact ⟨by rw [h5.1, h4.1, h3.1, h2.1, h1.1], by rw [h5.2, h4.2, h3.2, h2.2, h1.2]⟩

/-! ### C3: box intersection -/

/-- Whenever `Box::intersect` reports a hit, the returned normal is
`Box.normalAt` evaluated at the returned hit point. -/
theorem Box.intersect_normalAt (b : Box) (r : Ray) (t : ℝ) (n : Vector3)
    (h : b.intersect r = some (t, n)) :
    n = b.normalAt (r.origin + t • r.direction) r.direction := by
  unfold Box.intersect at h
  dsimp only at h
  split_ifs at h <;>
  · rw [Option.some.injEq, Prod.mk.injEq] at h
    obtain ⟨ht, hn⟩ := h
    rw [← hn, ← ht]

/-- A slab along an axis with zero direction component, with the ray origin
strictly inside: the interval is `(-∞, +∞)` (IEEE infinities). -/
theorem slab_zero_inside (lo hi o : ℝ) (hlo : lo - o < 0) (hhi : 0 < hi - o) :
    slab lo hi o (einv 0) = ((⊥ : EReal), (⊤ : EReal)) := by
  unfold slab einv
  rw [if_pos rfl]
  rw [EReal.coe_mul_top_of_neg hlo, EReal.coe_mul_top_of_pos hhi]
  rw [if_neg not_top_lt]

/-- The y-slab of the C3 test ray: direction `-1`, origin `5`, faces `0` and
`1` give the swapped interval `(4, 5)`. -/
theorem slab_y_c3 :
    slab 0 1 5 (einv (-1)) = (((4 : ℝ) : EReal), ((5 : ℝ) : EReal)) := by
  unfold slab einv
  rw [if_neg (by norm_num : ¬((-1 : ℝ) = 0))]
  rw [show (((0 : ℝ) - 5 : ℝ) : EReal) * ((1 / (-1 : ℝ) : ℝ) : EReal) = ((5 : ℝ) : EReal) by
    rw [← EReal.coe_mul]; norm_num]
  rw [show (((1 : ℝ) - 5 : ℝ) : EReal) * ((1 / (-1 : ℝ) : ℝ) : EReal) = ((4 : ℝ) : EReal) by
    rw [← EReal.coe_mul]; norm_num]
  rw [if_pos (EReal.coe_lt_coe_iff.mpr (by norm_num : (4 : ℝ) < 5))]

/-- The face tests at the C3 hit point `(0,1,0)` all fail (the ray travels
downward, so the `max.y` face sign test wants `direction.y > 0`), and the
centroid fallback yields the outward normal `(0,1,0)`. -/
theorem boxC3_normalAt : boxC3.normalAt ⟨0, 1, 0⟩ ⟨0, -1, 0⟩ = ⟨0, 1, 0⟩ := by
  unfold Box.normalAt boxC3
  norm_num
  rw [normalize_eval (show (0 : ℝ) < 0.5 by norm_num) (by norm_num)]
  norm_num

/-- The C3 box test: the downward ray enters the box at `t = 4`; the IEEE
infinite x/z slabs are harmless, and the normal comes from the centroid
fallback. -/
theorem boxC3_intersect_down : boxC3.intersect downRay = some (4, ⟨0, 1, 0⟩) := by
  unfold Box.intersect
  simp only [show boxC3.min = ⟨-1, 0, -1⟩ from rfl, show boxC3.max = ⟨1, 1, 1⟩ from rfl,
    downRay_origin, downRay_direction]
  rw [slab_zero_inside (-1) 1 0 (by norm_num) (by norm_num), slab_y_c3]
  norm_num [EReal.coe_lt_coe_iff, EReal.bot_lt_coe, EReal.coe_lt_top, EReal.toReal_coe,
    not_lt_bot, not_top_lt]
  exact boxC3_normalAt

/-- C3: the ray from `(0,5,0)` toward `(0,-1,0)` against the box
`(-1,0,-1)`-`(1,1,1)` hits at `t = 4` with normal `(0,1,0)`; and in general,
whenever a reported box hit point lies within epsilon of no face
consistently with the sign of the ray direction on that axis, the returned
normal is the normalized direction from the box centroid to the hit point. -/
theorem box_intersect_test_and_fallback_normal :
    boxC3.intersect downRay = some (4, ⟨0, 1, 0⟩) ∧
    ∀ (b : Box) (r : Ray) (t : ℝ) (n : Vector3),
      b.intersect r = some (t, n) →
      ¬(|(r.origin + t • r.direction).x - b.min.x| < 0.001 ∧ r.direction.x < 0) →
      ¬(|(r.origin + t • r.direction).x - b.max.x| < 0.001 ∧ r.direction.x > 0) →
      ¬(|(r.origin + t • r.direction).y - b.min.y| < 0.001 ∧ r.direction.y < 0) →
      ¬(|(r.origin + t • r.direction).y - b.max.y| < 0.001 ∧ r.direction.y > 0) →
      ¬(|(r.origin + t • r.direction).z - b.min.z| < 0.001 ∧ r.direction.z < 0) →
      ¬(|(r.origin + t • r.direction).z - b.max.z| < 0.001 ∧ r.direction.z > 0) →
      n = ((r.origin + t • r.direction) - (0.5 : ℝ) • (b.min + b.max)).normalize := by
  refine ⟨boxC3_intersect_down, ?_⟩
  intro b r t n h hx1 hx2 hy1 hy2 hz1 hz2
  rw [Box.intersect_normalAt b r t n h]
  unfold Box.normalAt
  dsimp only
  rw [if_neg hx1, if_neg hx2, if_neg hy1, if_neg hy2, if_neg hz1, if_neg hz2]
  rw [if_pos (by norm_num : (⟨0, 0, 0⟩ : Vector3).length = 0)]

/-- Witness for C3: the general fallback rule applied to the C3 test hit. -/
theorem box_intersect_test_and_fallback_normal_witness :
    (⟨0, 1, 0⟩ : Vector3)
      = ((downRay.origin + (4 : ℝ) • downRay.direction)
          - (0.5 : ℝ) • (boxC3.min + boxC3.max)).normalize :=
  box_intersect_test_and_fallback_normal.2 boxC3 downRay 4 ⟨0, 1, 0⟩
    box_intersect_test_and_fallback_normal.1
    (by norm_num [downRay_origin, downRay_direction,
      show boxC3.min = ⟨-1, 0, -1⟩ from rfl])
    (by norm_num [downRay_origin, downRay_direction,
      show boxC3.max = ⟨1, 1, 1⟩ from rfl])
    (by norm_num [downRay_origin, downRay_direction,
      show boxC3.min = ⟨-1, 0, -1⟩ from rfl])
    (by norm_num [downRay_origin, downRay_direction,
      show boxC3.max = ⟨1, 1, 1⟩ from rfl])
    (by norm_num [downRay_origin, downRay_direction,
      show boxC3.min = ⟨-1, 0, -1⟩ from rfl])
    (by norm_num [downRay_origin, downRay_direction,
      show boxC3.max = ⟨1, 1, 1⟩ from rfl])

/-! ### C4: epsilon offsets of the refractive secondary rays -/

/-- C4 (amended): the refraction ray is spawned at `hitPoint - 0.001·n`
where `n` is the possibly-flipped normal, while the mirror ray is always
spawned at `hitPoint + 0.001·hitNormal` with the unflipped geometric normal.
When the ray enters the medium (`-dir·normal > 0`, so `n = hitNormal`) the
two origins lie on opposite sides of the surface as intended; on exit both
offsets coincide on the outside of the surface and the mirror ray can
re-intersect it (see the counterexample). -/
theorem refract_ray_offsets (dir hitPoint hitNormal : Vector3) (eta0 : ℝ) :
    (refractRayOf dir hitPoint hitNormal eta0).origin
        = hitPoint - (0.001 : ℝ) • (refractGeom dir hitNormal eta0).2.1 ∧
    (reflectRayOfNoTIR dir hitPoint hitNormal).origin
        = hitPoint + (0.001 : ℝ) • hitNormal ∧
    (-(dir.dot hitNormal) > 0 →
      (refractRayOf dir hitPoint hitNormal eta0).origin
          = hitPoint - (0.001 : ℝ) • hitNormal ∧
      (reflectRayOfNoTIR dir hitPoint hitNormal).origin
          = hitPoint + (0.001 : ℝ) • hitNormal) := by
  refine ⟨rfl, rfl, fun h => ⟨?_, rfl⟩⟩
  simp only [refractRayOf, refractGeom, mkRay_origin]
  rw [if_pos h]

/-- Witness for C4 (amended) in the entering case. -/
theorem refract_ray_offsets_witness :
    (-(Vector3.dot ⟨0, 0, -1⟩ ⟨0, 0, 1⟩) > 0) ∧
    (refractRayOf ⟨0, 0, -1⟩ ⟨0, 0, 1⟩ ⟨0, 0, 1⟩ 1.5).origin
        = (⟨0, 0, 1⟩ : Vector3) - (0.001 : ℝ) • ⟨0, 0, 1⟩ ∧
    (reflectRayOfNoTIR ⟨0, 0, -1⟩ ⟨0, 0, 1⟩ ⟨0, 0, 1⟩).origin
        = (⟨0, 0, 1⟩ : Vector3) + (0.001 : ℝ) • ⟨0, 0, 1⟩ :=
  ⟨by norm_num, (refract_ray_offsets ⟨0, 0, -1⟩ ⟨0, 0, 1⟩ ⟨0, 0, 1⟩ 1.5).2.2 (by norm_num)⟩

/-- C4 counterexample: on the exit hit of `insideRay` through the glass
sphere (no total internal reflection: `sinT2 = 0 < 1`), the code's mirror
ray is spawned at `(0,0,-1.001)`, which is `hitPoint - 0.001·n` for the
flipped normal `n = (0,0,1)` — not `hitPoint + 0.001·n = (0,0,-0.999)` —
and that mirror ray re-intersects the very sphere it left, at `t = 2.001`. -/
theorem reflect_ray_offset_counterexample :
    (glassScene.findHit insideRay).hitPoint = ⟨0, 0, -1⟩ ∧
    (glassScene.findHit insideRay).hitNormal = ⟨0, 0, -1⟩ ∧
    (glassScene.findHit insideRay).hitMat.isRefractive = true ∧
    refractGeom insideRay.direction ⟨0, 0, -1⟩ 1.5 = (1, ⟨0, 0, 1⟩, 1 / 1.5) ∧
    ((1 : ℝ) / 1.5) * (1 / 1.5) * (1 - 1 * 1) < 1 ∧
    (reflectRayOfNoTIR insideRay.direction ⟨0, 0, -1⟩ ⟨0, 0, -1⟩).origin = ⟨0, 0, -1.001⟩ ∧
    (⟨0, 0, -1.001⟩ : Vector3) ≠ (⟨0, 0, -1⟩ : Vector3) + (0.001 : ℝ) • ⟨0, 0, 1⟩ ∧
    glassSphere.intersect (reflectRayOfNoTIR insideRay.direction ⟨0, 0, -1⟩ ⟨0, 0, -1⟩)
      = some 2.001 := by
  have hray : reflectRayOfNoTIR insideRay.direction ⟨0, 0, -1⟩ ⟨0, 0, -1⟩
      = ⟨⟨0, 0, -1.001⟩, ⟨0, 0, 1⟩⟩ := by
    rw [insideRay_direction]
    unfold reflectRayOfNoTIR mkRay
    rw [show ((⟨0, 0, -1⟩ : Vector3)
        - (2 * Vector3.dot ⟨0, 0, -1⟩ ⟨0, 0, -1⟩) • (⟨0, 0, -1⟩ : Vector3)) = ⟨0, 0, 1⟩ by
      norm_num]
    rw [normalize_001, normalize_001]
    norm_num
  refine ⟨by rw [findHit_glass_inside]; rfl, by rw [findHit_glass_inside]; rfl,
    by rw [findHit_glass_inside]; rfl, ?_, by norm_num, by rw [hray], ?_, ?_⟩
  · rw [insideRay_direction]
    unfold refractGeom
    norm_num
  · intro h
    rw [show ((⟨0, 0, -1⟩ : Vector3) + (0.001 : ℝ) • ⟨0, 0, 1⟩) = ⟨0, 0, -0.999⟩ by norm_num,
      Vector3.mk.injEq] at h
    norm_num at h
  · rw [hray]
    rw [sphere_intersect_eval glassSphere ⟨⟨0, 0, -1.001⟩, ⟨0, 0, 1⟩⟩ 1 (-2.002) 0.002001
      (by norm_num) (by norm_num [glassSphere]) (by norm_num [glassSphere])]
    rw [show Real.sqrt ((-2.002 : ℝ) * (-2.002) - 4 * 1 * 0.002001) = 2 from
      sqrt_eval (by norm_num) (by norm_num)]
    norm_num

/-! ### C5: sphere intersection roots -/

/-- C5: `Sphere::intersect` solves `a t² + b t + c = 0` with
`a = d·d`, `b = 2(o-c)·d`, `c = (o-c)·(o-c) - r²`: a negative discriminant
is a miss, the smaller root is preferred, the larger root is the fallback
when the smaller is `≤ 0.001`, and a root is accepted only when `> 0.001`;
concretely, the ray from `(0,0,5)` toward `(0,0,-1)` hits the unit sphere at
the origin at `t = 4`, and the trace derives the normal `(0,0,1)` there. -/
theorem sphere_intersect_quadratic :
    (∀ (s : Sphere) (r : Ray) (a b c : ℝ),
      r.direction.dot r.direction = a →
      2 * (r.origin - s.center).dot r.direction = b →
      (r.origin - s.center).dot (r.origin - s.center) - s.radius * s.radius = c →
      (b * b - 4 * a * c < 0 → s.intersect r = none) ∧
      (0 ≤ b * b - 4 * a * c →
        ((-b - Real.sqrt (b * b - 4 * a * c)) / (2 * a) > 0.001 →
          s.intersect r = some ((-b - Real.sqrt (b * b - 4 * a * c)) / (2 * a))) ∧
        (¬((-b - Real.sqrt (b * b - 4 * a * c)) / (2 * a) > 0.001) →
          ((-b + Real.sqrt (b * b - 4 * a * c)) / (2 * a) > 0.001 →
            s.intersect r = some ((-b + Real.sqrt (b * b - 4 * a * c)) / (2 * a))) ∧
          (¬((-b + Real.sqrt (b * b - 4 * a * c)) / (2 * a) > 0.001) →
            s.intersect r = none)))) ∧
    glassSphere.intersect c1Ray = some 4 ∧
    (glassScene.findHit c1Ray).tMin = 4 ∧
    (glassScene.findHit c1Ray).hitNormal = ⟨0, 0, 1⟩ := by
  refine ⟨?_, glassSphere_intersect_c1, by rw [findHit_glass_c1]; rfl,
    by rw [findHit_glass_c1]; rfl⟩
  intro s r a b c ha hb hc
  rw [sphere_intersect_eval s r a b c ha hb hc]
  refine ⟨fun hneg => by rw [if_pos hneg],
    fun hnn => ⟨fun ht1 => ?_, fun ht1 => ⟨fun ht2 => ?_, fun ht2 => ?_⟩⟩⟩
  · rw [if_neg (not_lt.mpr hnn), if_pos ht1]
  · rw [if_neg (not_lt.mpr hnn), if_neg ht1, if_pos ht2]
  · rw [if_neg (not_lt.mpr hnn), if_neg ht1, if_neg ht2]

/-- Witness for C5: the general root selection re-derives the concrete
`t = 4` hit of the C5 test ray. -/
theorem sphere_intersect_quadratic_witness :
    glassSphere.intersect c1Ray = some ((-(-10 : ℝ)
      - Real.sqrt ((-10 : ℝ) * (-10) - 4 * 1 * 24)) / (2 * 1)) :=
  ((sphere_intersect_quadratic.1 glassSphere c1Ray 1 (-10) 24
    (by norm_num [c1Ray_direction])
    (by norm_num [c1Ray_origin, c1Ray_direction, glassSphere])
    (by norm_num [c1Ray_origin, glassSphere])).2 (by norm_num)).1 (by
      rw [show Real.sqrt ((-10 : ℝ) * (-10) - 4 * 1 * 24) = 2 from
        sqrt_eval (by norm_num) (by norm_num)]
      norm_num)

/-! ### C10: plane overrides leak the recorded refractivity -/

/-- C10 (amended): each of the five inline plane overrides assigns `color`,
`ka`, `kd`, `ks`, `kr`, `isMetallic` and `roughness` (the floor additionally
assigns `shininess`; the four walls and the ceiling leave `shininess`
untouched — see the counterexample), and none assigns `isRefractive` or
`eta`; consequently, a ray that records a refractive sphere into `hitMat`
and then finds a strictly nearer plane hit is shaded through the refractive
branch with the sphere's `eta` instead of the plane's local illumination. -/
theorem plane_override_and_refraction_leak :
    (∀ (r : Ray) (st : HitState),
      ((floorStep r st).hitMat.isRefractive = st.hitMat.isRefractive ∧
        (floorStep r st).hitMat.eta = st.hitMat.eta) ∧
      ((leftWallStep r st).hitMat.isRefractive = st.hitMat.isRefractive ∧
        (leftWallStep r st).hitMat.eta = st.hitMat.eta) ∧
      ((rightWallStep r st).hitMat.isRefractive = st.hitMat.isRefractive ∧
        (rightWallStep r st).hitMat.eta = st.hitMat.eta) ∧
      ((backWallStep r st).hitMat.isRefractive = st.hitMat.isRefractive ∧
        (backWallStep r st).hitMat.eta = st.hitMat.eta) ∧
      ((ceilingStep r st).hitMat.isRefractive = st.hitMat.isRefractive ∧
        (ceilingStep r st).hitMat.eta = st.hitMat.eta)) ∧
    ∀ (sc : Scene) (g : ℕ → ℝ) (pt : ℕ → ℕ) (r : Ray) (d ix : ℕ) (stSB : HitState),
      sc.boxes.foldl (boxStep r) (sc.spheres.foldl (sphereStep r) HitState.init) = stSB →
      stSB.hitMat.isRefractive = true →
      d < 6 →
      (sc.findHit r).hasHit = true →
      (sc.findHit r).tMin < stSB.tMin →
      sc.trace g pt r d ix
        = refractiveShade (fun r2 ix2 => sc.trace g pt r2 (d + 1) ix2)
            r.direction (sc.findHit r).hitPoint (sc.findHit r).hitNormal
            stSB.hitMat.eta ix := by
  constructor
  · intro r st
    exact ⟨floorStep_keeps r st, leftWallStep_keeps r st, rightWallStep_keeps r st,
      backWallStep_keeps r st, ceilingStep_keeps r st⟩
  · intro sc g pt r d ix stSB hSB hrefr hd hh _htmin
    have hk := findHit_keeps sc r
    rw [hSB] at hk
    rw [trace_refractive sc g pt r d ix hd hh (by rw [hk.1, hrefr])]
    rw [hk.2]

/-- Witness for C10 in `floorScene`: a refractive sphere behind the floor
plane leaks its `eta = 1.5` into the refractive shading of the floor hit. -/
theorem plane_override_and_refraction_leak_witness :
    floorSphereHit.hitMat.isRefractive = true ∧
    (floorScene.findHit floorRay).tMin < floorSphereHit.tMin ∧
    floorScene.trace g0 p0 floorRay 0 0
      = refractiveShade (fun r2 ix2 => floorScene.trace g0 p0 r2 1 ix2)
          floorRay.direction (floorScene.findHit floorRay).hitPoint
          (floorScene.findHit floorRay).hitNormal floorSphereHit.hitMat.eta 0 := by
  refine ⟨rfl, by rw [findHit_floor]; norm_num [floorHit, floorSphereHit], ?_⟩
  exact plane_override_and_refraction_leak.2 floorScene g0 p0 floorRay 0 0 floorSphereHit
    sphereStage_floor rfl (by norm_num) (by rw [findHit_floor]; rfl)
    (by rw [findHit_floor]; norm_num [floorHit, floorSphereHit])

/-- C10 counterexample: the left-wall override does not assign `shininess`;
two different prior materials keep their different shininess values through
the override, so the override result is not a fixed assignment. -/
theorem leftWall_shininess_counterexample :
    (leftWallStep wallRay
      { HitState.init with hitMat := { shininess := 123 } }).hitMat.shininess = 123 ∧
    (leftWallStep wallRay
      { HitState.init with hitMat := { shininess := 7 } }).hitMat.shininess = 7 ∧
    (123 : ℝ) ≠ 7 := by
  have heval : ∀ m : Material,
      (leftWallStep wallRay { HitState.init with hitMat := m }).hitMat.shininess
        = m.shininess := by
    intro m
    unfold leftWallStep
    rw [planeIntersect_eval wallRay ⟨-1.5, 0, 0⟩ ⟨1, 0, 0⟩ (-1) 1.5
      (by norm_num [wallRay_direction])
      (by norm_num [wallRay_origin])]
    norm_num [HitState.init, wallRay_origin, wallRay_direction]
  exact ⟨heval { shininess := 123 }, heval { shininess := 7 }, by norm_num⟩

/-! ### C7: Schlick Fresnel weight bounds -/

/-- C7: for `cosI ∈ (0,1]` and `eta > 1` the Schlick Fresnel value computed
by the refractive branch lies in `[0,1]`, and the reflection weight `fresnel`
and refraction weight `1 - fresnel` sum to exactly 1. -/
theorem fresnelSchlick_bounds (cosI eta : ℝ) (h0 : 0 < cosI) (h1 : cosI ≤ 1)
    (he : 1 < eta) :
    (0 ≤ fresnelSchlick cosI eta ∧ fresnelSchlick cosI eta ≤ 1) ∧
    fresnelSchlick cosI eta + (1 - fresnelSchlick cosI eta) = 1 := by
  have hp : (0 : ℝ) < (eta + 1) * (eta + 1) := by nlinarith
  have hR0 : 0 ≤ ((eta - 1) * (eta - 1)) / ((eta + 1) * (eta + 1)) :=
    div_nonneg (mul_self_nonneg _) hp.le
  have hR1 : ((eta - 1) * (eta - 1)) / ((eta + 1) * (eta + 1)) ≤ 1 := by
    rw [div_le_one hp]
    nlinarith
  have hx0 : (0 : ℝ) ≤ (1 - cosI) ^ (5 : ℕ) := pow_nonneg (by linarith) 5
  have hx1 : (1 - cosI) ^ (5 : ℕ) ≤ 1 := pow_le_one₀ (by linarith) (by linarith)
  refine ⟨⟨?_, ?_⟩, by ring⟩
  · unfold fresnelSchlick
    have := mul_nonneg (by linarith : (0:ℝ) ≤ 1 - ((eta - 1) * (eta - 1)) / ((eta + 1) * (eta + 1))) hx0
    linarith
  · unfold fresnelSchlick
    nlinarith

/-- Witness for C7 at `cosI = 1/2`, `eta = 2`. -/
theorem fresnelSchlick_bounds_witness :
    (0 ≤ fresnelSchlick (1 / 2) 2 ∧ fresnelSchlick (1 / 2) 2 ≤ 1) ∧
    fresnelSchlick (1 / 2) 2 + (1 - fresnelSchlick (1 / 2) 2) = 1 :=
  fresnelSchlick_bounds (1 / 2) 2 (by norm_num) (by norm_num) (by norm_num)

/-! ### C8: gamma correction -/

/-- C8: the per-channel gamma map `clamp(c,0,1)^0.454` of `Scene::render`
keeps values of `[0,1]` inside `[0,1]` and is monotonically increasing. -/
theorem gammaCorrect_range_mono :
    (∀ c : ℝ, 0 ≤ c → c ≤ 1 → 0 ≤ gammaCorrect c ∧ gammaCorrect c ≤ 1) ∧
    ∀ c1 c2 : ℝ, c1 ≤ c2 → gammaCorrect c1 ≤ gammaCorrect c2 := by
  constructor
  · intro c _h0 _h1
    unfold gammaCorrect
    constructor
    · exact Real.rpow_nonneg (le_max_left 0 _) _
    · exact Real.rpow_le_one (le_max_left 0 _)
        (max_le (by norm_num) (min_le_right c 1)) (by norm_num)
  · intro c1 c2 h
    unfold gammaCorrect
    exact Real.rpow_le_rpow (le_max_left 0 _)
      (max_le_max le_rfl (min_le_min h le_rfl)) (by norm_num)

/-- Witness for C8 at the channel values 0 and 1. -/
theorem gammaCorrect_range_mono_witness :
    (0 ≤ gammaCorrect 1 ∧ gammaCorrect 1 ≤ 1) ∧ gammaCorrect 0 ≤ gammaCorrect 1 :=
  ⟨gammaCorrect_range_mono.1 1 (by norm_num) (by norm_num),
   gammaCorrect_range_mono.2 0 1 (by norm_num)⟩

/-! ### C9: zero-length directions -/

/-- C9: `Vector3::normalize` on the zero vector returns it unchanged (the
degenerate case is not an error), so a `Ray` constructed with a zero
direction keeps the zero direction, whose length is not 1. -/
theorem normalize_zero_and_degenerate_ray :
    Vector3.normalize ⟨0, 0, 0⟩ = ⟨0, 0, 0⟩ ∧
    (∀ o : Vector3, (mkRay o ⟨0, 0, 0⟩).direction = ⟨0, 0, 0⟩) ∧
    ∀ o : Vector3, (mkRay o ⟨0, 0, 0⟩).direction.length ≠ 1 := by
  have hz : Vector3.normalize ⟨0, 0, 0⟩ = ⟨0, 0, 0⟩ := by
    unfold Vector3.normalize
    norm_num
  refine ⟨hz, fun o => by simp [mkRay, hz], fun o => ?_⟩
  simp only [mkRay_direction, hz, Vector3.length_mk]
  norm_num

end RayTracer
